import Mathlib

/-!
HDC2021 temperature / humidity sensor driver.

A shallow embedding of `src/hdc2021.c` and `src/hdc2021.h`.

* The file-scope variables of the driver (`_address`, `_reg`, `_write`, `_read`,
  `_wait`) are the fields of the record `Driver`; every driver function takes
  the record and returns the updated one.
* The three transport callbacks act on an explicit world `W` (the bus, the
  sensor, the clock).  A write returns its success flag; a read returns its
  success flag together with the contents of the destination buffer when the
  call returns.
* `uint8_t` objects held by the driver are `Fin 256`, bit-fields are `Fin 2`
  and `Fin 8`; `int16_t` / `int32_t` values are `Int` with the explicit
  wrap-around functions `toInt16` / `toInt32`.  `int` is 32 bits wide and the
  target is little-endian with bit-fields allocated from the least significant
  bit (the mbed / ARM target of `src/main.cpp`).
-/

namespace HDC2021

/-! ## Header: error codes, interrupt masks, cadence values, sample record -/

/-- Error codes of the driver (`HDC2021Err`). -/
inductive HDC2021Err
  | HDC2021_ERR_NONE
  | HDC2021_ERR_NOT_CONNECT
  | HDC2021_ERR_NOT_RESPONSE
  | HDC2021_ERR_ID_MISMATCH
deriving DecidableEq, Repr

open HDC2021Err

def HDC2021_INT_EN_NONE : Nat := 0
def HDC2021_INT_EN_HL : Nat := 1 <<< 3
def HDC2021_INT_EN_HH : Nat := 1 <<< 4
def HDC2021_INT_EN_TL : Nat := 1 <<< 5
def HDC2021_INT_EN_TH : Nat := 1 <<< 6
def HDC2021_INT_EN_DRDY : Nat := 1 <<< 7

/-- Interrupt pin polarity (`HDC2021IntPol`), by enumerator value. -/
def HDC2021_INT_POL_LOW : Nat := 0
def HDC2021_INT_POL_HIGH : Nat := 1

/-- Measurement cadence (`HDC2021CC`), by enumerator value. -/
def HDC2021_CC_ONESHOT : Nat := 0
def HDC2021_CC_2MIN : Nat := 1
def HDC2021_CC_1MIN : Nat := 2
def HDC2021_CC_10SEC : Nat := 3
def HDC2021_CC_5SEC : Nat := 4
def HDC2021_CC_1SEC : Nat := 5
def HDC2021_CC_500MSEC : Nat := 6
def HDC2021_CC_200MSEC : Nat := 7

/-- Sample record `HDC2021Data`: two `int16_t` fields. -/
structure HDC2021Data where
  temperature : Int
  humidity : Int
deriving DecidableEq, Repr

/-- Callback type `hdc2021write`: address, register, bytes to send. -/
abbrev hdc2021write (W : Type) := Nat → Nat → List Nat → W → Bool × W

/-- Callback type `hdc2021read`: address, register, size of the destination
buffer; the list is the destination buffer when the call returns. -/
abbrev hdc2021read (W : Type) := Nat → Nat → Nat → W → Bool × List Nat × W

/-- Callback type `hdc2021waitmsec`. -/
abbrev hdc2021waitmsec (W : Type) := Int → W → W

/-! ## Machine integers and buffers -/

/-- Conversion to `int16_t` (two's complement wrap). -/
def toInt16 (n : Int) : Int := (n + 32768) % 65536 - 32768

/-- Conversion to `int32_t` (two's complement wrap). -/
def toInt32 (n : Int) : Int := (n + 2147483648) % 4294967296 - 2147483648

/-- Conversion to `uint8_t`. -/
def toUInt8 (n : Nat) : Fin 256 := ⟨n % 256, Nat.mod_lt n (by decide)⟩

/-- Byte `i` of a buffer. -/
def byteAt (buf : List Nat) (i : Nat) : Nat := buf.getD i 0 % 256

/-- Element `k` of an `int16_t` array laid over a byte buffer (little-endian). -/
def int16At (buf : List Nat) (k : Nat) : Int :=
  toInt16 ((byteAt buf (2 * k) : Int) + 256 * (byteAt buf (2 * k + 1) : Int))

/-- The C library `memcmp` over the first `n` bytes of two buffers. -/
def memcmp : List Nat → List Nat → Nat → Int
  | _, _, 0 => 0
  | a, b, n + 1 =>
    if byteAt a 0 ≠ byteAt b 0 then (byteAt a 0 : Int) - (byteAt b 0 : Int)
    else memcmp a.tail b.tail n

/-! ## `hdc2021.c`: constants -/

def HDC2021_DATA_RANG : Int := 0xFFFF
def HDC2021_TEMP_RENG : Int := 125 + 40
def HDC2021_HUM_RENG : Int := 100

def HDC2021_TEMP_PER_BIT : Int := toInt32 (Int.tdiv (HDC2021_DATA_RANG * 10) HDC2021_TEMP_RENG)
def HDC2021_HUM_PER_BIT : Int := toInt32 (Int.tdiv (HDC2021_DATA_RANG * 10) HDC2021_HUM_RENG)

def HDC2021_REG_TEMP_LOW : Nat := 0x00
def HDC2021_REG_TEMP_HIGH : Nat := 0x01
def HDC2021_REG_HUM_LOW : Nat := 0x02
def HDC2021_REG_HUM_HIGH : Nat := 0x03
def HDC2021_REG_STATUS : Nat := 0x04
def HDC2021_REG_TEMP_MAX : Nat := 0x05
def HDC2021_REG_HUM_MAX : Nat := 0x06
def HDC2021_REG_INT_ENABLE : Nat := 0x07
def HDC2021_REG_TEMP_OFFSET : Nat := 0x08
def HDC2021_REG_HUM_OFFSET : Nat := 0x09
def HDC2021_REG_TEMP_THR_L : Nat := 0x0A
def HDC2021_REG_TEMP_THR_H : Nat := 0x0B
def HDC2021_REG_RH_THR_L : Nat := 0x0C
def HDC2021_REG_RH_THR_H : Nat := 0x0D
def HDC2021_REG_DEVICE_CONFIG : Nat := 0x0E
def HDC2021_REG_MEAS_CONFIG : Nat := 0x0F
def HDC2021_REG_MFR_ID_LOW : Nat := 0xFC
def HDC2021_REG_MFR_ID_HIGH : Nat := 0xFD
def HDC2021_REG_DEVICE_ID_LOW : Nat := 0xFE
def HDC2021_REG_DEVICE_ID_HIGH : Nat := 0xFF

def HDC2021_DEFAULT_TEMP_THR_L : Fin 256 := 0x01
def HDC2021_DEFAULT_TEMP_THR_H : Fin 256 := 0xFF
def HDC2021_DEFAULT_RH_THR_L : Fin 256 := 0x00
def HDC2021_DEFAULT_RH_THR_H : Fin 256 := 0xFF

def HDC2021_MANUFACTURER_ID : List Nat := [0x49, 0x54]
def HDC2021_DEVICE_ID : List Nat := [0xD0, 0x07]

/-! ## `hdc2021.c`: register images -/

/-- Device configuration register (`HDC2021RegDeviceConfig`), bit-field view. -/
structure HDC2021RegDeviceConfig where
  int_mode : Fin 2
  int_pol : Fin 2
  drdy : Fin 2
  heat : Fin 2
  cc : Fin 8
  reset : Fin 2
deriving DecidableEq, Repr

/-- The `data` view of the device configuration union: bit-fields are laid out
from the least significant bit in declaration order. -/
def HDC2021RegDeviceConfig.data (r : HDC2021RegDeviceConfig) : Nat :=
  r.int_mode.val + 2 * r.int_pol.val + 4 * r.drdy.val + 8 * r.heat.val
    + 16 * r.cc.val + 128 * r.reset.val

/-- Measurement configuration register (`HDC2021RegMeasurementConfig`),
bit-field view. -/
structure HDC2021RegMeasurementConfig where
  meas_trig : Fin 2
  meas_conf : Fin 4
  res : Fin 2
  hacc : Fin 4
  tacc : Fin 4
deriving DecidableEq, Repr

/-- The `data` view of the measurement configuration union. -/
def HDC2021RegMeasurementConfig.data (r : HDC2021RegMeasurementConfig) : Nat :=
  r.meas_trig.val + 2 * r.meas_conf.val + 8 * r.res.val + 16 * r.hacc.val
    + 64 * r.tacc.val

/-- The writable register block (`HDC2021Regster`, packed).  The interrupt
enable union is only ever accessed through its `data` byte. -/
structure HDC2021Regster where
  temp_max : Fin 256
  hum_max : Fin 256
  int_en : Fin 256
  temp_offset : Fin 256
  hum_offset : Fin 256
  temp_thr_l : Fin 256
  temp_thr_h : Fin 256
  rh_thr_l : Fin 256
  rh_thr_h : Fin 256
  device_conf : HDC2021RegDeviceConfig
  meas_conf : HDC2021RegMeasurementConfig
deriving DecidableEq, Repr

/-- The object representation `(const uint8_t*)&_reg` over
`sizeof(HDC2021Regster)` bytes. -/
def HDC2021Regster.bytes (r : HDC2021Regster) : List Nat :=
  [r.temp_max.val, r.hum_max.val, r.int_en.val, r.temp_offset.val, r.hum_offset.val,
   r.temp_thr_l.val, r.temp_thr_h.val, r.rh_thr_l.val, r.rh_thr_h.val,
   r.device_conf.data, r.meas_conf.data]

/-- The result of `memset(&_reg, 0x00, sizeof(HDC2021Regster))`. -/
def HDC2021Regster.zero : HDC2021Regster :=
  { temp_max := 0, hum_max := 0, int_en := 0, temp_offset := 0, hum_offset := 0,
    temp_thr_l := 0, temp_thr_h := 0, rh_thr_l := 0, rh_thr_h := 0,
    device_conf := { int_mode := 0, int_pol := 0, drdy := 0, heat := 0, cc := 0, reset := 0 },
    meas_conf := { meas_trig := 0, meas_conf := 0, res := 0, hacc := 0, tacc := 0 } }

/-! ## `hdc2021.c`: driver state and functions -/

/-- The file-scope state of the driver. -/
structure Driver (W : Type) where
  _address : Fin 256
  _reg : HDC2021Regster
  _write : hdc2021write W
  _read : hdc2021read W
  _wait : hdc2021waitmsec W

variable {W : Type}

def hdc2021Write (st : Driver W) (reg : Nat) (val : List Nat) (w : W) : Bool × W :=
  st._write st._address.val reg val w

def hdc2021Read (st : Driver W) (reg : Nat) (size : Nat) (w : W) : Bool × List Nat × W :=
  st._read st._address.val reg size w

def hdc2021Waitmsec (st : Driver W) (msec : Int) (w : W) : W :=
  st._wait msec w

def hdc2021SetDefaultReagster (st : Driver W) : Driver W :=
  let st := { st with _reg := HDC2021Regster.zero }
  let st := { st with _reg := { st._reg with temp_thr_l := HDC2021_DEFAULT_TEMP_THR_L } }
  let st := { st with _reg := { st._reg with temp_thr_h := HDC2021_DEFAULT_TEMP_THR_H } }
  let st := { st with _reg := { st._reg with rh_thr_l := HDC2021_DEFAULT_RH_THR_L } }
  { st with _reg := { st._reg with rh_thr_h := HDC2021_DEFAULT_RH_THR_H } }

def hdc2021Softreset (st : Driver W) (w : W) : HDC2021Err × W :=
  let reg := st._reg.device_conf
  let reg := { reg with reset := 1 }
  let r := hdc2021Write st HDC2021_REG_DEVICE_CONFIG [reg.data] w
  let err := if r.1 then HDC2021_ERR_NONE else HDC2021_ERR_NOT_CONNECT
  (err, hdc2021Waitmsec st 10 r.2)

def hdc2021CheckID (st : Driver W) (w : W) : HDC2021Err × W :=
  match hdc2021Read st HDC2021_REG_DEVICE_ID_LOW 2 w with
  | (false, _, w1) => (HDC2021_ERR_NOT_RESPONSE, w1)
  | (true, id, w1) =>
    if 0 ≠ memcmp id HDC2021_DEVICE_ID 2 then (HDC2021_ERR_ID_MISMATCH, w1)
    else (HDC2021_ERR_NONE, w1)

def hdc2021_init (address : Nat) (write : hdc2021write W) (read : hdc2021read W)
    (wait : hdc2021waitmsec W) (st : Driver W) (w : W) : HDC2021Err × Driver W × W :=
  let st := { st with _write := write }
  let st := { st with _read := read }
  let st := { st with _wait := wait }
  let st := { st with _address := toUInt8 address }
  let st := hdc2021SetDefaultReagster st
  match hdc2021Softreset st w with
  | (HDC2021_ERR_NONE, w1) =>
    let r := hdc2021CheckID st w1
    (r.1, st, r.2)
  | (err, w1) => (err, st, w1)

def hdc2021_start (mode : Nat) (st : Driver W) (w : W) : HDC2021Err × Driver W × W :=
  let st := { st with _reg := { st._reg with
    device_conf := { st._reg.device_conf with cc := ⟨mode % 8, Nat.mod_lt mode (by decide)⟩ } } }
  let st := { st with _reg := { st._reg with
    meas_conf := { st._reg.meas_conf with meas_trig := 1 } } }
  let r := hdc2021Write st HDC2021_REG_TEMP_MAX st._reg.bytes w
  if r.1 then (HDC2021_ERR_NONE, st, r.2) else (HDC2021_ERR_NOT_RESPONSE, st, r.2)

def hdc2021_stop (st : Driver W) (w : W) : HDC2021Err × Driver W × W :=
  let st := { st with _reg := { st._reg with
    meas_conf := { st._reg.meas_conf with meas_trig := 0 } } }
  let r := hdc2021Write st HDC2021_REG_TEMP_MAX st._reg.bytes w
  if r.1 then (HDC2021_ERR_NONE, st, r.2) else (HDC2021_ERR_NOT_RESPONSE, st, r.2)

/-- The temperature expression of `hdc2021_readData`,
`(int16_t)((int32_t)(read[0] * 100) / HDC2021_TEMP_PER_BIT) - 400`, stored in an
`int16_t`: the product is computed in `int`, cast to `int32_t`, divided
(truncating), cast to `int16_t`, reduced by 400 and converted on assignment. -/
def convTemperature (raw : Int) : Int :=
  toInt16 (toInt16 (Int.tdiv (toInt32 (toInt32 (raw * 100))) HDC2021_TEMP_PER_BIT) - 400)

/-- The humidity expression of `hdc2021_readData`,
`(int16_t)((int32_t)(read[1] * 10) / HDC2021_HUM_PER_BIT)`. -/
def convHumidity (raw : Int) : Int :=
  toInt16 (toInt16 (Int.tdiv (toInt32 (toInt32 (raw * 10))) HDC2021_HUM_PER_BIT))

def hdc2021_readData (st : Driver W) (data : HDC2021Data) (w : W) :
    HDC2021Err × HDC2021Data × Driver W × W :=
  let data := { data with temperature := 0 }
  let data := { data with humidity := 0 }
  match hdc2021Read st HDC2021_REG_TEMP_LOW 4 w with
  | (false, _, w1) => (HDC2021_ERR_NOT_RESPONSE, data, st, w1)
  | (true, read, w1) =>
    let data := { data with temperature := convTemperature (int16At read 0) }
    let data := { data with humidity := convHumidity (int16At read 1) }
    (HDC2021_ERR_NONE, data, st, w1)

/-- The status byte is read into a local and never stored through `status`. -/
def hdc2021_readStatus (st : Driver W) (status : Fin 256) (w : W) :
    HDC2021Err × Fin 256 × Driver W × W :=
  match hdc2021Read st HDC2021_REG_STATUS 1 w with
  | (false, _, w1) => (HDC2021_ERR_NOT_RESPONSE, status, st, w1)
  | (true, _, w1) => (HDC2021_ERR_NONE, status, st, w1)

def hdc2021_setInterrupt (int_en : Nat) (pol : Nat) (st : Driver W) : Driver W :=
  let st := { st with _reg := { st._reg with int_en := toUInt8 int_en } }
  let st := { st with _reg := { st._reg with
    device_conf := { st._reg.device_conf with int_pol := ⟨pol % 2, Nat.mod_lt pol (by decide)⟩ } } }
  if int_en % 256 = HDC2021_INT_EN_NONE then
    { st with _reg := { st._reg with device_conf := { st._reg.device_conf with drdy := 0 } } }
  else
    { st with _reg := { st._reg with device_conf := { st._reg.device_conf with drdy := 1 } } }

/-- The driver state at program start: `_address` is `0x80`, `_reg` is
zero-initialised, the three callbacks are null pointers.  A call through a null
callback is not modelled; the stand-ins below report failure and leave the
world alone. -/
def Driver.initial : Driver W :=
  { _address := 0x80, _reg := HDC2021Regster.zero,
    _write := fun _ _ _ w => (false, w),
    _read := fun _ _ _ w => (false, [], w),
    _wait := fun _ w => w }

/-- The driver state after the five assignments and the call of
`hdc2021SetDefaultReagster` at the head of `hdc2021_init`, in closed form (see
`init_unfold`). -/
def initState (address : Nat) (write : hdc2021write W) (read : hdc2021read W)
    (wait : hdc2021waitmsec W) : Driver W :=
  { _address := toUInt8 address,
    _reg := { HDC2021Regster.zero with
      temp_thr_l := 0x01, temp_thr_h := 0xFF, rh_thr_l := 0x00, rh_thr_h := 0xFF },
    _write := write, _read := read, _wait := wait }

/-! ## Transport call traces -/

/-- One call made through a transport callback. -/
inductive Call
  | write (addr reg : Nat) (data : List Nat)
  | read (addr reg size : Nat)
  | wait (msec : Int)
deriving DecidableEq, Repr

/-- A write callback that also appends each call to a log. -/
def tracedWrite (wr : hdc2021write W) : hdc2021write (W × List Call) :=
  fun a r d s => ((wr a r d s.1).1, ((wr a r d s.1).2, s.2 ++ [Call.write a r d]))

/-- A read callback that also appends each call to a log. -/
def tracedRead (rd : hdc2021read W) : hdc2021read (W × List Call) :=
  fun a r n s => ((rd a r n s.1).1, (rd a r n s.1).2.1, ((rd a r n s.1).2.2, s.2 ++ [Call.read a r n]))

/-- A wait callback that also appends each call to a log. -/
def tracedWait (wt : hdc2021waitmsec W) : hdc2021waitmsec (W × List Call) :=
  fun m s => (wt m s.1, s.2 ++ [Call.wait m])

/-- A driver whose stored callbacks log every call. -/
def Driver.traced (address : Fin 256) (reg : HDC2021Regster) (wr : hdc2021write W)
    (rd : hdc2021read W) (wt : hdc2021waitmsec W) : Driver (W × List Call) :=
  { _address := address, _reg := reg, _write := tracedWrite wr, _read := tracedRead rd,
    _wait := tracedWait wt }

/-! ## A simulated sensor: a register file behind a bus address -/

/-- A simulated device: it acknowledges one bus address and holds a register
file. -/
structure SimDevice where
  address : Nat
  regs : Nat → Nat

def simWrite : hdc2021write SimDevice :=
  fun a reg src d =>
    if a = d.address then
      (true, { d with regs := fun r =>
        if reg ≤ r ∧ r < reg + src.length then src.getD (r - reg) 0 else d.regs r })
    else (false, d)

def simRead : hdc2021read SimDevice :=
  fun a reg size d =>
    if a = d.address then (true, (List.range size).map (fun i => d.regs (reg + i)), d)
    else (false, List.replicate size 0, d)

def simWait : hdc2021waitmsec SimDevice := fun _ d => d

/-- A read callback for a bus whose reads are never acknowledged: it reports
failure and leaves `0xAA` in every byte of the destination buffer. -/
def simReadFail : hdc2021read SimDevice :=
  fun _ _ size d => (false, List.replicate size 0xAA, d)

/-- A simulated device at bus address `0x80` with the given sample bytes at
registers `0x00..0x03` and the given identity bytes at `0xFC..0xFF`. -/
def simSensor (t0 t1 h0 h1 m0 m1 d0 d1 : Nat) : SimDevice :=
  { address := 0x80,
    regs := fun r =>
      if r = 0x00 then t0 else if r = 0x01 then t1 else if r = 0x02 then h0
      else if r = 0x03 then h1 else if r = 0xFC then m0 else if r = 0xFD then m1
      else if r = 0xFE then d0 else if r = 0xFF then d1 else 0 }

/-- A driver bound to the simulated device at bus address `0x80`. -/
def simDriver (reg : HDC2021Regster) : Driver SimDevice :=
  { _address := 0x80, _reg := reg, _write := simWrite, _read := simRead, _wait := simWait }

/-- The end-to-end host sequence against a simulated device:
`hdc2021_init(0x80, ...)`, then `hdc2021_start(HDC2021_CC_1MIN)` when init
succeeded, then `hdc2021_readData` when start succeeded.  The result is the
last error and the sample record. -/
def hostInitStartRead (d : SimDevice) (data : HDC2021Data) : HDC2021Err × HDC2021Data :=
  match hdc2021_init 0x80 simWrite simRead simWait Driver.initial d with
  | (HDC2021_ERR_NONE, st1, d1) =>
    match hdc2021_start HDC2021_CC_1MIN st1 d1 with
    | (HDC2021_ERR_NONE, st2, d2) =>
      let r := hdc2021_readData st2 data d2
      (r.1, r.2.1)
    | (err, _, _) => (err, data)
  | (err, _, _) => (err, data)

/-- The host sequence of `main` up to the start of measurements, with every
transport call logged: `hdc2021_init(0x80, ...)`, then, when init succeeded,
`hdc2021_setInterrupt(HDC2021_INT_EN_DRDY, HDC2021_INT_POL_LOW)` and
`hdc2021_start(HDC2021_CC_1MIN)`.  The result is the last error and the log. -/
def hostInitInterruptStart (d : SimDevice) : HDC2021Err × List Call :=
  match hdc2021_init 0x80 (tracedWrite simWrite) (tracedRead simRead) (tracedWait simWait)
      Driver.initial (d, []) with
  | (HDC2021_ERR_NONE, st1, s1) =>
    let st2 := hdc2021_setInterrupt HDC2021_INT_EN_DRDY HDC2021_INT_POL_LOW st1
    let r := hdc2021_start HDC2021_CC_1MIN st2 s1
    (r.1, r.2.2.2)
  | (err, _, s1) => (err, s1.2)

/-! ## Host call sequences -/

/-- One call of the host after `hdc2021_init`, with the arguments it passes:
the cadence for `hdc2021_start`, the mask and polarity for
`hdc2021_setInterrupt`, the caller's output objects for `hdc2021_readData` and
`hdc2021_readStatus`. -/
inductive Op
  | start (mode : Nat)
  | stop
  | setInterrupt (int_en pol : Nat)
  | readData (data : HDC2021Data)
  | readStatus (status : Fin 256)

/-- The effect of one host call on the driver state and the world; the return
value is dropped.  `hdc2021_setInterrupt` makes no callback call, so the world
passes through it untouched. -/
def Op.run (op : Op) (st : Driver W) (w : W) : Driver W × W :=
  match op with
  | Op.start mode => ((hdc2021_start mode st w).2.1, (hdc2021_start mode st w).2.2)
  | Op.stop => ((hdc2021_stop st w).2.1, (hdc2021_stop st w).2.2)
  | Op.setInterrupt int_en pol => (hdc2021_setInterrupt int_en pol st, w)
  | Op.readData data => ((hdc2021_readData st data w).2.2.1, (hdc2021_readData st data w).2.2.2)
  | Op.readStatus status =>
    ((hdc2021_readStatus st status w).2.2.1, (hdc2021_readStatus st status w).2.2.2)

/-- A sequence of host calls, in order. -/
def runOps : List Op → Driver W → W → Driver W × W
  | [], st, w => (st, w)
  | op :: ops, st, w => runOps ops (op.run st w).1 (op.run st w).2

/-- The part of the shadow that no driver function assigns after
`hdc2021SetDefaultReagster`: the two maximum registers and the two offsets are
zero, the thresholds are `01 FF 00 FF`, and of the two configuration registers
the bits `reset`, `heat`, `int_mode`, `meas_conf`, `res`, `hacc`, `tacc` are
zero. -/
def shadowInv (r : HDC2021Regster) : Prop :=
  r.temp_max = 0 ∧ r.hum_max = 0 ∧ r.temp_offset = 0 ∧ r.hum_offset = 0 ∧
  r.temp_thr_l = 0x01 ∧ r.temp_thr_h = 0xFF ∧ r.rh_thr_l = 0x00 ∧ r.rh_thr_h = 0xFF ∧
  r.device_conf.reset = 0 ∧ r.device_conf.heat = 0 ∧ r.device_conf.int_mode = 0 ∧
  r.meas_conf.meas_conf = 0 ∧ r.meas_conf.res = 0 ∧ r.meas_conf.hacc = 0 ∧
  r.meas_conf.tacc = 0

/-- A logged call that carries no soft reset: a write is the 11-byte block at
register `0x05` with bit 7 of the byte that lands on register `0x0E` clear;
reads and waits pass. -/
def Call.noResetWrite : Call → Prop
  | Call.write _ reg data => reg = 0x05 ∧ data.length = 11 ∧ (data.getD 9 0).testBit 7 = false
  | Call.read _ _ _ => True
  | Call.wait _ => True

/-! ## A bus that is down for its first transactions -/

/-- A write on a bus in front of the simulated device that fails while the
countdown is positive (one step per transaction) and reaches the device
afterwards. -/
def flakyWrite : hdc2021write (Nat × SimDevice) :=
  fun a reg src s =>
    if s.1 = 0 then ((simWrite a reg src s.2).1, (0, (simWrite a reg src s.2).2))
    else (false, (s.1 - 1, s.2))

/-- A read on the same bus. -/
def flakyRead : hdc2021read (Nat × SimDevice) :=
  fun a reg size s =>
    if s.1 = 0 then ((simRead a reg size s.2).1, (simRead a reg size s.2).2.1,
      (0, (simRead a reg size s.2).2.2))
    else (false, List.replicate size 0, (s.1 - 1, s.2))

/-- A wait on the same bus. -/
def flakyWait : hdc2021waitmsec (Nat × SimDevice) := fun _ s => s

/-- A host that ignores the error of `hdc2021_init`: init at `0x80` on a bus
that is down for its first transaction, then `hdc2021_start(HDC2021_CC_1MIN)`,
`hdc2021_stop`, `hdc2021_readData` and `hdc2021_readStatus`.  The result is the
list of the five return values. -/
def hostAfterFailedInit : List HDC2021Err :=
  let r0 := hdc2021_init 0x80 flakyWrite flakyRead flakyWait Driver.initial
    (1, simSensor 0x00 0x40 0x00 0x20 0x49 0x54 0xD0 0x07)
  let r1 := hdc2021_start HDC2021_CC_1MIN r0.2.1 r0.2.2
  let r2 := hdc2021_stop r1.2.1 r1.2.2
  let r3 := hdc2021_readData r2.2.1 ⟨0, 0⟩ r2.2.2
  let r4 := hdc2021_readStatus r3.2.2.1 0 r3.2.2.2
  [r0.1, r1.1, r2.1, r3.1, r4.1]

/-! ## Arithmetic of the conversion -/

theorem toInt16_of_range (n : Int) (h1 : -32768 ≤ n) (h2 : n ≤ 32767) : toInt16 n = n := by
  unfold toInt16; omega

theorem toInt32_of_range (n : Int) (h1 : -2147483648 ≤ n) (h2 : n ≤ 2147483647) :
    toInt32 n = n := by
  unfold toInt32; omega

theorem toInt16_range (n : Int) : -32768 ≤ toInt16 n ∧ toInt16 n ≤ 32767 := by
  unfold toInt16; omega

/-- A 16-bit pattern read as `int16_t`. -/
theorem toInt16_of_word (n : Int) (h1 : 0 ≤ n) (h2 : n < 65536) :
    toInt16 n = if n < 32768 then n else n - 65536 := by
  unfold toInt16; split <;> omega

/-- Truncating division by a positive divisor, through Euclidean division. -/
theorem tdiv_of_pos (x b : Int) (hb : 0 < b) :
    Int.tdiv x b = if 0 ≤ x then x / b else -((-x) / b) := by
  split
  · exact Int.tdiv_eq_ediv (by assumption) (Int.le_of_lt hb)
  · have hx : x = -(-x) := by omega
    have hn : (0 : Int) ≤ -x := by omega
    calc Int.tdiv x b = Int.tdiv (-(-x)) b := by rw [← hx]
      _ = -(Int.tdiv (-x) b) := Int.neg_tdiv _ _
      _ = -((-x) / b) := by rw [Int.tdiv_eq_ediv hn (Int.le_of_lt hb)]

theorem HDC2021_TEMP_PER_BIT_eq : HDC2021_TEMP_PER_BIT = 3971 := by decide

theorem HDC2021_HUM_PER_BIT_eq : HDC2021_HUM_PER_BIT = 6553 := by decide

/-- On an `int16_t` input no cast of the temperature expression wraps. -/
theorem convTemperature_eq (raw : Int) (h1 : -32768 ≤ raw) (h2 : raw ≤ 32767) :
    convTemperature raw = Int.tdiv (raw * 100) 3971 - 400 := by
  unfold convTemperature
  rw [HDC2021_TEMP_PER_BIT_eq, toInt32_of_range (raw * 100) (by omega) (by omega),
    toInt32_of_range (raw * 100) (by omega) (by omega), tdiv_of_pos _ 3971 (by decide)]
  split
  · rw [toInt16_of_range ((raw * 100) / 3971) (by omega) (by omega),
      toInt16_of_range _ (by omega) (by omega)]
  · rw [toInt16_of_range (-((-(raw * 100)) / 3971)) (by omega) (by omega),
      toInt16_of_range _ (by omega) (by omega)]

/-- On an `int16_t` input no cast of the humidity expression wraps. -/
theorem convHumidity_eq (raw : Int) (h1 : -32768 ≤ raw) (h2 : raw ≤ 32767) :
    convHumidity raw = Int.tdiv (raw * 10) 6553 := by
  unfold convHumidity
  rw [HDC2021_HUM_PER_BIT_eq, toInt32_of_range (raw * 10) (by omega) (by omega),
    toInt32_of_range (raw * 10) (by omega) (by omega), tdiv_of_pos _ 6553 (by decide)]
  split
  · rw [toInt16_of_range ((raw * 10) / 6553) (by omega) (by omega),
      toInt16_of_range _ (by omega) (by omega)]
  · rw [toInt16_of_range (-((-(raw * 10)) / 6553)) (by omega) (by omega),
      toInt16_of_range _ (by omega) (by omega)]

/-- The two array elements of a four-byte reply. -/
theorem int16At_reply (b0 b1 b2 b3 : Nat) (h0 : b0 < 256) (h1 : b1 < 256) (h2 : b2 < 256)
    (h3 : b3 < 256) :
    int16At [b0, b1, b2, b3] 0 = toInt16 ((b0 : Int) + 256 * (b1 : Int)) ∧
    int16At [b0, b1, b2, b3] 1 = toInt16 ((b2 : Int) + 256 * (b3 : Int)) := by
  simp [int16At, byteAt, Nat.mod_eq_of_lt h0, Nat.mod_eq_of_lt h1, Nat.mod_eq_of_lt h2,
    Nat.mod_eq_of_lt h3]

/-- What `hdc2021_readData` returns when its read succeeds. -/
theorem readData_of_read_ok (st : Driver W) (data : HDC2021Data) (w w1 : W) (buf : List Nat)
    (hread : st._read st._address.val 0x00 4 w = (true, buf, w1)) :
    hdc2021_readData st data w =
      (HDC2021_ERR_NONE,
       { temperature := convTemperature (int16At buf 0),
         humidity := convHumidity (int16At buf 1) }, st, w1) := by
  simp [hdc2021_readData, hdc2021Read, HDC2021_REG_TEMP_LOW, hread]

/-- What `hdc2021_readData` returns when its read fails. -/
theorem readData_of_read_fail (st : Driver W) (data : HDC2021Data) (w w1 : W) (buf : List Nat)
    (hread : st._read st._address.val 0x00 4 w = (false, buf, w1)) :
    hdc2021_readData st data w =
      (HDC2021_ERR_NOT_RESPONSE, { temperature := 0, humidity := 0 }, st, w1) := by
  simp [hdc2021_readData, hdc2021Read, HDC2021_REG_TEMP_LOW, hread]

/-! ## Sample conversion (C1 - C4) -/

/-- C1, as stated, fails: in the end-to-end scenario (init at `0x80` succeeds,
start with the 1-minute cadence succeeds, the device holds the raw words
`0x4000` and `0x2000`) the humidity output is 12, not 25. -/
theorem scenario_humidity_is_not_25 :
    (hostInitStartRead (simSensor 0x00 0x40 0x00 0x20 0x49 0x54 0xD0 0x07) ⟨0, 0⟩).1
        = HDC2021_ERR_NONE ∧
    (hostInitStartRead (simSensor 0x00 0x40 0x00 0x20 0x49 0x54 0xD0 0x07) ⟨0, 0⟩).2.temperature
        = 12 ∧
    (hostInitStartRead (simSensor 0x00 0x40 0x00 0x20 0x49 0x54 0xD0 0x07) ⟨0, 0⟩).2.humidity
        = 12 ∧
    (hostInitStartRead (simSensor 0x00 0x40 0x00 0x20 0x49 0x54 0xD0 0x07) ⟨0, 0⟩).2.humidity
        ≠ 25 := by
  decide

/-- C1 (amended): for every four-byte reply `b0, b1, b2, b3` of a successful
read, `hdc2021_readData` returns `HDC2021_ERR_NONE` with
`temperature = (t * 100) / 3971 - 400` and `humidity = (h * 10) / 6553`, where
`t` and `h` are the little-endian words read as signed 16-bit values, the
division truncates, `3971 = floor(65535 * 10 / 165)` and
`6553 = floor(65535 * 10 / 100)` are the two scale constants of the source; in
the end-to-end scenario with raw words `0x4000`, `0x2000` the outputs are
temperature 12 and humidity 12. -/
theorem readData_conversion_formula :
    (∀ (V : Type) (st : Driver V) (data : HDC2021Data) (w w1 : V) (b0 b1 b2 b3 : Nat),
      b0 < 256 → b1 < 256 → b2 < 256 → b3 < 256 →
      st._read st._address.val 0x00 4 w = (true, [b0, b1, b2, b3], w1) →
      hdc2021_readData st data w =
        (HDC2021_ERR_NONE,
         { temperature :=
             Int.tdiv ((if b0 + 256 * b1 < 32768 then ((b0 + 256 * b1 : Nat) : Int)
               else ((b0 + 256 * b1 : Nat) : Int) - 65536) * 100) 3971 - 400,
           humidity :=
             Int.tdiv ((if b2 + 256 * b3 < 32768 then ((b2 + 256 * b3 : Nat) : Int)
               else ((b2 + 256 * b3 : Nat) : Int) - 65536) * 10) 6553 },
         st, w1)) ∧
    (HDC2021_TEMP_PER_BIT = 3971 ∧ 65535 * 10 / 165 = 3971) ∧
    (HDC2021_HUM_PER_BIT = 6553 ∧ 65535 * 10 / 100 = 6553) ∧
    (∀ data : HDC2021Data,
      hostInitStartRead (simSensor 0x00 0x40 0x00 0x20 0x49 0x54 0xD0 0x07) data
        = (HDC2021_ERR_NONE, { temperature := 12, humidity := 12 })) := by
  refine ⟨?_, ⟨by decide, by decide⟩, ⟨by decide, by decide⟩, fun data => rfl⟩
  intro V st data w w1 b0 b1 b2 b3 h0 h1 h2 h3 hread
  rw [readData_of_read_ok st data w w1 _ hread]
  obtain ⟨e0, e1⟩ := int16At_reply b0 b1 b2 b3 h0 h1 h2 h3
  have ht : int16At [b0, b1, b2, b3] 0 =
      if b0 + 256 * b1 < 32768 then ((b0 + 256 * b1 : Nat) : Int)
      else ((b0 + 256 * b1 : Nat) : Int) - 65536 := by
    rw [e0, toInt16_of_word _ (by omega) (by omega)]
    split <;> split <;> omega
  have hh : int16At [b0, b1, b2, b3] 1 =
      if b2 + 256 * b3 < 32768 then ((b2 + 256 * b3 : Nat) : Int)
      else ((b2 + 256 * b3 : Nat) : Int) - 65536 := by
    rw [e1, toInt16_of_word _ (by omega) (by omega)]
    split <;> split <;> omega
  have rt := toInt16_range ((b0 : Int) + 256 * (b1 : Int))
  have rh := toInt16_range ((b2 : Int) + 256 * (b3 : Int))
  rw [convTemperature_eq _ (e0 ▸ rt.1) (e0 ▸ rt.2), convHumidity_eq _ (e1 ▸ rh.1) (e1 ▸ rh.2),
    ht, hh]

/-- The conversion formula at the reply `34 12 CD AB` of the simulated device:
the words are `0x1234` and `0xABCD = -21555`, the outputs -283 and -32. -/
theorem readData_conversion_formula_witness :
    simRead 0x80 0x00 4 (simSensor 0x34 0x12 0xCD 0xAB 0x49 0x54 0xD0 0x07)
      = (true, [0x34, 0x12, 0xCD, 0xAB], simSensor 0x34 0x12 0xCD 0xAB 0x49 0x54 0xD0 0x07) ∧
    (hdc2021_readData (simDriver HDC2021Regster.zero) ⟨7, 7⟩
      (simSensor 0x34 0x12 0xCD 0xAB 0x49 0x54 0xD0 0x07)).2.1
      = { temperature := -283, humidity := -32 } := by
  refine ⟨rfl, ?_⟩
  rw [readData_conversion_formula.1 SimDevice (simDriver HDC2021Regster.zero) ⟨7, 7⟩
    (simSensor 0x34 0x12 0xCD 0xAB 0x49 0x54 0xD0 0x07)
    (simSensor 0x34 0x12 0xCD 0xAB 0x49 0x54 0xD0 0x07) 0x34 0x12 0xCD 0xAB
    (by decide) (by decide) (by decide) (by decide) rfl]
  decide

/-- C2: when a successful read delivers the raw words `0x0000`, `0x0000`,
`hdc2021_readData` returns temperature -400 and humidity 0. -/
theorem readData_zero_words (st : Driver W) (data : HDC2021Data) (w w1 : W)
    (hread : st._read st._address.val 0x00 4 w = (true, [0x00, 0x00, 0x00, 0x00], w1)) :
    (hdc2021_readData st data w).1 = HDC2021_ERR_NONE ∧
    (hdc2021_readData st data w).2.1 = { temperature := -400, humidity := 0 } := by
  rw [readData_of_read_ok st data w w1 _ hread]
  refine ⟨rfl, ?_⟩
  show ({ temperature := convTemperature (int16At [0x00, 0x00, 0x00, 0x00] 0),
          humidity := convHumidity (int16At [0x00, 0x00, 0x00, 0x00] 1) } : HDC2021Data) = _
  decide

/-- The zero reply on the simulated device. -/
theorem readData_zero_words_witness :
    simRead 0x80 0x00 4 (simSensor 0x00 0x00 0x00 0x00 0x49 0x54 0xD0 0x07)
      = (true, [0x00, 0x00, 0x00, 0x00], simSensor 0x00 0x00 0x00 0x00 0x49 0x54 0xD0 0x07) ∧
    (hdc2021_readData (simDriver HDC2021Regster.zero) ⟨7, 7⟩
      (simSensor 0x00 0x00 0x00 0x00 0x49 0x54 0xD0 0x07)).2.1
      = { temperature := -400, humidity := 0 } :=
  ⟨rfl, (readData_zero_words (simDriver HDC2021Regster.zero) ⟨7, 7⟩
    (simSensor 0x00 0x00 0x00 0x00 0x49 0x54 0xD0 0x07)
    (simSensor 0x00 0x00 0x00 0x00 0x49 0x54 0xD0 0x07) rfl).2⟩

/-- C3, the code at the failing input: a successful read delivers the raw
temperature word `0xFFFF` (bytes `0xFF, 0xFF`).  `hdc2021_readData` takes the
word out of `int16_t read[2]` as -1 and returns the temperature -400, the
bottom of the range, so `849 ≤ t ≤ 851` (that is, `|t - 850| ≤ 1`) does not
hold.  The scale constant is built on the full range `0xFFFF` over 165 degrees
(-40 to 125), and on the word taken unsigned, 65535, the same expression gives
1250.  Likewise the word `0x8BA2` of a 50 degree sample is taken as -29790 and
gives -1150 where the expression on 35746 gives 500. -/
theorem full_scale_temperature_word_taken_signed :
    (hdc2021_readData (simDriver HDC2021Regster.zero) ⟨0, 0⟩
      (simSensor 0xFF 0xFF 0x00 0x00 0x49 0x54 0xD0 0x07)).1 = HDC2021_ERR_NONE ∧
    int16At [0xFF, 0xFF, 0x00, 0x00] 0 = -1 ∧
    (hdc2021_readData (simDriver HDC2021Regster.zero) ⟨0, 0⟩
      (simSensor 0xFF 0xFF 0x00 0x00 0x49 0x54 0xD0 0x07)).2.1.temperature = -400 ∧
    ¬ (849 ≤ (hdc2021_readData (simDriver HDC2021Regster.zero) ⟨0, 0⟩
        (simSensor 0xFF 0xFF 0x00 0x00 0x49 0x54 0xD0 0x07)).2.1.temperature ∧
       (hdc2021_readData (simDriver HDC2021Regster.zero) ⟨0, 0⟩
        (simSensor 0xFF 0xFF 0x00 0x00 0x49 0x54 0xD0 0x07)).2.1.temperature ≤ 851) ∧
    HDC2021_TEMP_PER_BIT = Int.tdiv (0xFFFF * 10) (125 + 40) ∧
    convTemperature 65535 = 1250 ∧
    (hdc2021_readData (simDriver HDC2021Regster.zero) ⟨0, 0⟩
      (simSensor 0xA2 0x8B 0x00 0x00 0x49 0x54 0xD0 0x07)).2.1.temperature = -1150 ∧
    convTemperature 35746 = 500 := by
  decide

/-- C4, as stated, fails: with the raw humidity word `0xFFFF` the humidity
output `h` is 0, so `999 ≤ h ≤ 1001` (that is, `|h - 1000| ≤ 1`) does not
hold. -/
theorem full_scale_word_humidity_not_near_1000 :
    (hdc2021_readData (simDriver HDC2021Regster.zero) ⟨0, 0⟩
      (simSensor 0x00 0x00 0xFF 0xFF 0x49 0x54 0xD0 0x07)).1 = HDC2021_ERR_NONE ∧
    ¬ (999 ≤ (hdc2021_readData (simDriver HDC2021Regster.zero) ⟨0, 0⟩
        (simSensor 0x00 0x00 0xFF 0xFF 0x49 0x54 0xD0 0x07)).2.1.humidity ∧
       (hdc2021_readData (simDriver HDC2021Regster.zero) ⟨0, 0⟩
        (simSensor 0x00 0x00 0xFF 0xFF 0x49 0x54 0xD0 0x07)).2.1.humidity ≤ 1001) := by
  decide

/-- C4 (amended): the humidity output of `hdc2021_readData` is in whole percent
relative humidity, not tenths: when a successful read delivers a raw humidity
word `h` with the high bit clear (`0x0000 .. 0x7FFF`, high byte below `0x80`),
the output is `(h * 10) / 6553`, which is `floor(h * 100 / 65535)` or that plus
one, and lies in `0 .. 50`. -/
theorem readData_humidity_whole_percent (st : Driver W) (data : HDC2021Data) (w w1 : W)
    (b0 b1 b2 b3 : Nat) (h2 : b2 < 256) (h3 : b3 < 128)
    (hread : st._read st._address.val 0x00 4 w = (true, [b0, b1, b2, b3], w1)) :
    (hdc2021_readData st data w).1 = HDC2021_ERR_NONE ∧
    (hdc2021_readData st data w).2.1.humidity = (((b2 + 256 * b3) * 10 / 6553 : Nat) : Int) ∧
    ((((b2 + 256 * b3) * 100 / 65535 : Nat) : Int) ≤ (hdc2021_readData st data w).2.1.humidity ∧
     (hdc2021_readData st data w).2.1.humidity
        ≤ (((b2 + 256 * b3) * 100 / 65535 : Nat) : Int) + 1) ∧
    (0 ≤ (hdc2021_readData st data w).2.1.humidity ∧
     (hdc2021_readData st data w).2.1.humidity ≤ 50) := by
  rw [readData_of_read_ok st data w w1 _ hread]
  have e : int16At [b0, b1, b2, b3] 1 = ((b2 : Int) + 256 * (b3 : Int)) := by
    have e0 : int16At [b0, b1, b2, b3] 1 = toInt16 ((b2 : Int) + 256 * (b3 : Int)) := by
      simp [int16At, byteAt, Nat.mod_eq_of_lt h2,
        Nat.mod_eq_of_lt (show b3 < 256 by omega)]
    rw [e0, toInt16_of_range _ (by omega) (by omega)]
  have hv : convHumidity (int16At [b0, b1, b2, b3] 1) =
      (((b2 + 256 * b3) * 10 / 6553 : Nat) : Int) := by
    rw [e, convHumidity_eq _ (by omega) (by omega), tdiv_of_pos _ 6553 (by decide)]
    split <;> omega
  refine ⟨rfl, hv, ?_, ?_⟩
  · show _ ≤ convHumidity (int16At [b0, b1, b2, b3] 1) ∧
      convHumidity (int16At [b0, b1, b2, b3] 1) ≤ _
    rw [hv]
    omega
  · show 0 ≤ convHumidity (int16At [b0, b1, b2, b3] 1) ∧
      convHumidity (int16At [b0, b1, b2, b3] 1) ≤ 50
    rw [hv]
    omega

/-- The half-scale reply `00 00 FF 7F` on the simulated device: the word
`0x7FFF` gives 50, that is 50 percent. -/
theorem readData_humidity_whole_percent_witness :
    ((0xFF : Nat) < 256 ∧ (0x7F : Nat) < 128) ∧
    simRead 0x80 0x00 4 (simSensor 0x00 0x00 0xFF 0x7F 0x49 0x54 0xD0 0x07)
      = (true, [0x00, 0x00, 0xFF, 0x7F], simSensor 0x00 0x00 0xFF 0x7F 0x49 0x54 0xD0 0x07) ∧
    (hdc2021_readData (simDriver HDC2021Regster.zero) ⟨7, 7⟩
      (simSensor 0x00 0x00 0xFF 0x7F 0x49 0x54 0xD0 0x07)).2.1.humidity
      = (((0xFF + 256 * 0x7F) * 10 / 6553 : Nat) : Int) ∧
    (((0xFF + 256 * 0x7F) * 10 / 6553 : Nat) : Int) = 50 :=
  ⟨⟨by decide, by decide⟩, rfl,
   (readData_humidity_whole_percent (simDriver HDC2021Regster.zero) ⟨7, 7⟩
      (simSensor 0x00 0x00 0xFF 0x7F 0x49 0x54 0xD0 0x07)
      (simSensor 0x00 0x00 0xFF 0x7F 0x49 0x54 0xD0 0x07) 0x00 0x00 0xFF 0x7F
      (by decide) (by decide) rfl).2.1,
   by decide⟩

/-! ## Initialisation (C5, C6) -/

/-- The comparison of the two identity bytes. -/
theorem memcmp_device_id (id : List Nat) :
    memcmp id HDC2021_DEVICE_ID 2 = 0 ↔ byteAt id 0 = 0xD0 ∧ byteAt id 1 = 0x07 := by
  have h1 : byteAt id.tail 0 = byteAt id 1 := by
    cases id <;> simp [byteAt]
  have hd0 : byteAt HDC2021_DEVICE_ID 0 = 0xD0 := by decide
  have hd1 : byteAt HDC2021_DEVICE_ID.tail 0 = 0x07 := by decide
  simp only [memcmp, hd0, hd1, h1]
  by_cases e0 : byteAt id 0 = 0xD0
  · by_cases e1 : byteAt id 1 = 0x07
    · simp [e0, e1]
    · simp [e0, e1]
      omega
  · simp [e0]
    omega

/-- The error code of `hdc2021CheckID` in terms of its read. -/
theorem checkID_err (st : Driver W) (w : W) :
    (hdc2021CheckID st w).1 =
      if (st._read st._address.val 0xFE 2 w).1 = true then
        if byteAt (st._read st._address.val 0xFE 2 w).2.1 0 = 0xD0 ∧
           byteAt (st._read st._address.val 0xFE 2 w).2.1 1 = 0x07 then
          HDC2021_ERR_NONE
        else HDC2021_ERR_ID_MISMATCH
      else HDC2021_ERR_NOT_RESPONSE := by
  unfold hdc2021CheckID hdc2021Read
  simp only [HDC2021_REG_DEVICE_ID_LOW]
  rcases st._read st._address.val 0xFE 2 w with ⟨ok, id, w2⟩
  cases ok
  · simp
  · by_cases hid : byteAt id 0 = 0xD0 ∧ byteAt id 1 = 0x07
    · have := (memcmp_device_id id).2 hid
      simp [this, hid]
    · have h2 : ¬ (0 = memcmp id HDC2021_DEVICE_ID 2) :=
        fun h => hid ((memcmp_device_id id).1 h.symm)
      simp [h2, hid]

/-- The world after `hdc2021CheckID` is the world after its read. -/
theorem checkID_world (st : Driver W) (w : W) :
    (hdc2021CheckID st w).2 = (st._read st._address.val 0xFE 2 w).2.2 := by
  unfold hdc2021CheckID hdc2021Read
  simp only [HDC2021_REG_DEVICE_ID_LOW]
  rcases st._read st._address.val 0xFE 2 w with ⟨ok, id, w2⟩
  cases ok
  · rfl
  · by_cases h : 0 = memcmp id HDC2021_DEVICE_ID 2 <;> simp [h]

/-- The three calls `hdc2021_init` makes at most: reset write, wait, identity read. -/
theorem init_unfold (address : Nat) (write : hdc2021write W) (read : hdc2021read W)
    (wait : hdc2021waitmsec W) (st : Driver W) (w : W) :
    hdc2021_init address write read wait st w =
      if (write (address % 256) 0x0E [0x80] w).1 = true then
        ((hdc2021CheckID (initState address write read wait)
            (wait 10 (write (address % 256) 0x0E [0x80] w).2)).1,
         initState address write read wait,
         (hdc2021CheckID (initState address write read wait)
            (wait 10 (write (address % 256) 0x0E [0x80] w).2)).2)
      else
        (HDC2021_ERR_NOT_CONNECT, initState address write read wait,
          wait 10 (write (address % 256) 0x0E [0x80] w).2) := by
  have hs : hdc2021Softreset (initState address write read wait) w =
      (if (write (address % 256) 0x0E [0x80] w).1 = true then HDC2021_ERR_NONE
        else HDC2021_ERR_NOT_CONNECT, wait 10 (write (address % 256) 0x0E [0x80] w).2) := rfl
  show (match hdc2021Softreset (initState address write read wait) w with
    | (HDC2021_ERR_NONE, w1) =>
      ((hdc2021CheckID (initState address write read wait) w1).1,
        initState address write read wait,
        (hdc2021CheckID (initState address write read wait) w1).2)
    | (err, w1) => (err, initState address write read wait, w1)) = _
  rw [hs]
  by_cases hw : (write (address % 256) 0x0E [0x80] w).1 = true
  · simp only [hw, if_true]
  · simp only [hw]
    rfl

/-- The error code of `hdc2021_init` in terms of the transport calls it makes. -/
theorem init_err (address : Nat) (write : hdc2021write W) (read : hdc2021read W)
    (wait : hdc2021waitmsec W) (st : Driver W) (w : W) :
    (hdc2021_init address write read wait st w).1 =
      if (write (address % 256) 0x0E [0x80] w).1 = true then
        if (read (address % 256) 0xFE 2 (wait 10 (write (address % 256) 0x0E [0x80] w).2)).1
            = true then
          if byteAt (read (address % 256) 0xFE 2
                (wait 10 (write (address % 256) 0x0E [0x80] w).2)).2.1 0 = 0xD0 ∧
             byteAt (read (address % 256) 0xFE 2
                (wait 10 (write (address % 256) 0x0E [0x80] w).2)).2.1 1 = 0x07 then
            HDC2021_ERR_NONE
          else HDC2021_ERR_ID_MISMATCH
        else HDC2021_ERR_NOT_RESPONSE
      else HDC2021_ERR_NOT_CONNECT := by
  rw [init_unfold]
  by_cases hw : (write (address % 256) 0x0E [0x80] w).1 = true
  · simp only [hw, if_true]
    exact checkID_err (initState address write read wait) _
  · simp only [hw]
    rfl

/-- C5: `hdc2021_init` returns `HDC2021_ERR_NOT_CONNECT` exactly when the
soft-reset write (one byte `0x80` at register `0x0E`) fails, whatever the read
would return; otherwise `HDC2021_ERR_NOT_RESPONSE` exactly when the two-byte
read at register `0xFE` fails; otherwise `HDC2021_ERR_ID_MISMATCH` exactly when
the two bytes read differ from `0xD0, 0x07`; otherwise `HDC2021_ERR_NONE`. -/
theorem init_result_decided_by_transport (address : Nat) (write : hdc2021write W)
    (read : hdc2021read W) (wait : hdc2021waitmsec W) (st : Driver W) (w : W) :
    ((hdc2021_init address write read wait st w).1 = HDC2021_ERR_NOT_CONNECT ↔
      (write (address % 256) 0x0E [0x80] w).1 = false) ∧
    ((write (address % 256) 0x0E [0x80] w).1 = true →
      ((hdc2021_init address write read wait st w).1 = HDC2021_ERR_NOT_RESPONSE ↔
        (read (address % 256) 0xFE 2 (wait 10 (write (address % 256) 0x0E [0x80] w).2)).1
          = false)) ∧
    ((write (address % 256) 0x0E [0x80] w).1 = true →
      (read (address % 256) 0xFE 2 (wait 10 (write (address % 256) 0x0E [0x80] w).2)).1
          = true →
      ((hdc2021_init address write read wait st w).1 = HDC2021_ERR_ID_MISMATCH ↔
        ¬ (byteAt (read (address % 256) 0xFE 2
              (wait 10 (write (address % 256) 0x0E [0x80] w).2)).2.1 0 = 0xD0 ∧
           byteAt (read (address % 256) 0xFE 2
              (wait 10 (write (address % 256) 0x0E [0x80] w).2)).2.1 1 = 0x07))) ∧
    ((hdc2021_init address write read wait st w).1 = HDC2021_ERR_NONE ↔
      ((write (address % 256) 0x0E [0x80] w).1 = true ∧
       (read (address % 256) 0xFE 2 (wait 10 (write (address % 256) 0x0E [0x80] w).2)).1
          = true ∧
       byteAt (read (address % 256) 0xFE 2
          (wait 10 (write (address % 256) 0x0E [0x80] w).2)).2.1 0 = 0xD0 ∧
       byteAt (read (address % 256) 0xFE 2
          (wait 10 (write (address % 256) 0x0E [0x80] w).2)).2.1 1 = 0x07)) := by
  rw [init_err]
  by_cases hw : (write (address % 256) 0x0E [0x80] w).1 = true
  · by_cases hr : (read (address % 256) 0xFE 2
        (wait 10 (write (address % 256) 0x0E [0x80] w).2)).1 = true
    · by_cases hid : byteAt (read (address % 256) 0xFE 2
            (wait 10 (write (address % 256) 0x0E [0x80] w).2)).2.1 0 = 0xD0 ∧
          byteAt (read (address % 256) 0xFE 2
            (wait 10 (write (address % 256) 0x0E [0x80] w).2)).2.1 1 = 0x07
      · simp [hw, hr, hid]
      · simp [hw, hr, hid]
    · simp [hw, hr]
  · simp [hw]

/-- C6, as stated, fails: with the wrong manufacturer pair `0x00, 0x00` at
`0xFC, 0xFD` and the device pair `0xD0, 0x07` at `0xFE, 0xFF` (four bytes other
than `0x49, 0x54, 0xD0, 0x07`), the reset write and the read succeed and
`hdc2021_init` returns `HDC2021_ERR_NONE`, not `HDC2021_ERR_ID_MISMATCH`. -/
theorem init_accepts_wrong_manufacturer_id :
    [0x00, 0x00, 0xD0, 0x07] ≠ [0x49, 0x54, 0xD0, 0x07] ∧
    (simWrite 0x80 0x0E [0x80] (simSensor 0 0 0 0 0x00 0x00 0xD0 0x07)).1 = true ∧
    (hdc2021_init 0x80 simWrite simRead simWait Driver.initial
      (simSensor 0 0 0 0 0x00 0x00 0xD0 0x07)).1 = HDC2021_ERR_NONE ∧
    (hdc2021_init 0x80 simWrite simRead simWait Driver.initial
      (simSensor 0 0 0 0 0x00 0x00 0xD0 0x07)).1 ≠ HDC2021_ERR_ID_MISMATCH := by
  decide

/-- C6 (amended): `hdc2021_init` verifies the device identity only.  Against a
simulated device at the bus address, where the reset write and every read
succeed, it returns `HDC2021_ERR_ID_MISMATCH` whenever the device-ID registers
`0xFE, 0xFF` hold two bytes other than `0xD0, 0x07`, and `HDC2021_ERR_NONE`
when they hold `0xD0, 0x07`, whatever the manufacturer-ID registers
`0xFC, 0xFD` hold. -/
theorem init_checks_device_id_only (t0 t1 h0 h1 m0 m1 d0 d1 : Nat) (st : Driver SimDevice)
    (hd0 : d0 < 256) (hd1 : d1 < 256) :
    (hdc2021_init 0x80 simWrite simRead simWait st (simSensor t0 t1 h0 h1 m0 m1 d0 d1)).1 =
      if d0 = 0xD0 ∧ d1 = 0x07 then HDC2021_ERR_NONE else HDC2021_ERR_ID_MISMATCH := by
  rw [init_err]
  have hw : (simWrite (0x80 % 256) 0x0E [0x80] (simSensor t0 t1 h0 h1 m0 m1 d0 d1)).1
      = true := rfl
  have hr1 : (simRead (0x80 % 256) 0xFE 2 (simWait 10
      (simWrite (0x80 % 256) 0x0E [0x80] (simSensor t0 t1 h0 h1 m0 m1 d0 d1)).2)).1
      = true := rfl
  have hr2 : (simRead (0x80 % 256) 0xFE 2 (simWait 10
      (simWrite (0x80 % 256) 0x0E [0x80] (simSensor t0 t1 h0 h1 m0 m1 d0 d1)).2)).2.1
      = [d0, d1] := rfl
  simp only [hw, hr1, hr2, if_true]
  have b0 : byteAt [d0, d1] 0 = d0 := by simp [byteAt, Nat.mod_eq_of_lt hd0]
  have b1 : byteAt [d0, d1] 1 = d1 := by simp [byteAt, Nat.mod_eq_of_lt hd1]
  rw [b0, b1]

/-- A wrong manufacturer pair with the right device pair, and a wrong device
pair with the right manufacturer pair, on the simulated device. -/
theorem init_checks_device_id_only_witness :
    (hdc2021_init 0x80 simWrite simRead simWait Driver.initial
      (simSensor 0 0 0 0 0x12 0x34 0xD0 0x07)).1 = HDC2021_ERR_NONE ∧
    (hdc2021_init 0x80 simWrite simRead simWait Driver.initial
      (simSensor 0 0 0 0 0x49 0x54 0xD0 0x08)).1 = HDC2021_ERR_ID_MISMATCH :=
  ⟨init_checks_device_id_only 0 0 0 0 0x12 0x34 0xD0 0x07 Driver.initial (by decide) (by decide),
   init_checks_device_id_only 0 0 0 0 0x49 0x54 0xD0 0x08 Driver.initial (by decide) (by decide)⟩

/-! ## Start and stop (C7 - C9) -/

/-- The driver state after `hdc2021_start`, whether or not the write succeeds. -/
theorem start_state (mode : Nat) (st : Driver W) (w : W) :
    (hdc2021_start mode st w).2.1 =
      { st with _reg := { st._reg with
          device_conf := { st._reg.device_conf with
            cc := ⟨mode % 8, Nat.mod_lt mode (by decide)⟩ },
          meas_conf := { st._reg.meas_conf with meas_trig := 1 } } } := by
  unfold hdc2021_start
  dsimp only
  split <;> rfl

/-- The error code of `hdc2021_start` in terms of its write. -/
theorem start_err (mode : Nat) (st : Driver W) (w : W) :
    (hdc2021_start mode st w).1 =
      if (st._write st._address.val 0x05 (hdc2021_start mode st w).2.1._reg.bytes w).1 = true
      then HDC2021_ERR_NONE else HDC2021_ERR_NOT_RESPONSE := by
  rw [start_state]
  unfold hdc2021_start hdc2021Write
  dsimp only [HDC2021_REG_TEMP_MAX]
  split <;> simp_all

/-- The world after `hdc2021_start` is the world after its write. -/
theorem start_world (mode : Nat) (st : Driver W) (w : W) :
    (hdc2021_start mode st w).2.2 =
      (st._write st._address.val 0x05 (hdc2021_start mode st w).2.1._reg.bytes w).2 := by
  rw [start_state]
  unfold hdc2021_start hdc2021Write
  dsimp only [HDC2021_REG_TEMP_MAX]
  split <;> rfl

/-- The driver state after `hdc2021_stop`, whether or not the write succeeds. -/
theorem stop_state (st : Driver W) (w : W) :
    (hdc2021_stop st w).2.1 =
      { st with _reg := { st._reg with
          meas_conf := { st._reg.meas_conf with meas_trig := 0 } } } := by
  unfold hdc2021_stop
  dsimp only
  split <;> rfl

/-- The error code of `hdc2021_stop` in terms of its write. -/
theorem stop_err (st : Driver W) (w : W) :
    (hdc2021_stop st w).1 =
      if (st._write st._address.val 0x05 (hdc2021_stop st w).2.1._reg.bytes w).1 = true
      then HDC2021_ERR_NONE else HDC2021_ERR_NOT_RESPONSE := by
  rw [stop_state]
  unfold hdc2021_stop hdc2021Write
  dsimp only [HDC2021_REG_TEMP_MAX]
  split <;> simp_all

/-- The world after `hdc2021_stop` is the world after its write. -/
theorem stop_world (st : Driver W) (w : W) :
    (hdc2021_stop st w).2.2 =
      (st._write st._address.val 0x05 (hdc2021_stop st w).2.1._reg.bytes w).2 := by
  rw [stop_state]
  unfold hdc2021_stop hdc2021Write
  dsimp only [HDC2021_REG_TEMP_MAX]
  split <;> rfl

/-- The device configuration byte, bit by bit. -/
theorem deviceConfig_data_bits (r : HDC2021RegDeviceConfig) :
    r.data = r.int_mode.val ||| r.int_pol.val <<< 1 ||| r.drdy.val <<< 2 ||| r.heat.val <<< 3
      ||| r.cc.val <<< 4 ||| r.reset.val <<< 7 := by
  rcases r with ⟨a, b, c, d, e, f⟩
  revert a b c d e f
  decide

/-- The measurement configuration byte, bit by bit. -/
theorem measConfig_data_bits (r : HDC2021RegMeasurementConfig) :
    r.data = r.meas_trig.val ||| r.meas_conf.val <<< 1 ||| r.res.val <<< 3 ||| r.hacc.val <<< 4
      ||| r.tacc.val <<< 6 := by
  rcases r with ⟨a, b, c, d, e⟩
  revert a b c d e
  decide

/-- C7: for every cadence `c` in `0..7` and every prior state, after
`hdc2021_start(c)` (whether or not the write succeeds) the shadow has
`meas_trig = 1` and `cc = c`; after a following `hdc2021_stop()` it has
`meas_trig = 0` and still `cc = c`. -/
theorem start_then_stop_shadow (c : Nat) (hc : c < 8) (st : Driver W) (w : W) :
    (hdc2021_start c st w).2.1._reg.meas_conf.meas_trig = 1 ∧
    (hdc2021_start c st w).2.1._reg.device_conf.cc.val = c ∧
    (hdc2021_stop (hdc2021_start c st w).2.1
      (hdc2021_start c st w).2.2).2.1._reg.meas_conf.meas_trig = 0 ∧
    (hdc2021_stop (hdc2021_start c st w).2.1
      (hdc2021_start c st w).2.2).2.1._reg.device_conf.cc.val = c := by
  rw [stop_state, start_state]
  exact ⟨rfl, Nat.mod_eq_of_lt hc, rfl, Nat.mod_eq_of_lt hc⟩

/-- Cadence 5 on a driver whose device does not answer (bus address `0x80`,
device at `0x40`): the writes fail and the shadow is updated all the same. -/
theorem start_then_stop_shadow_witness :
    5 < 8 ∧
    (hdc2021_start 5 (simDriver HDC2021Regster.zero)
      { address := 0x40, regs := fun _ => 0 }).1 = HDC2021_ERR_NOT_RESPONSE ∧
    (hdc2021_start 5 (simDriver HDC2021Regster.zero)
      { address := 0x40, regs := fun _ => 0 }).2.1._reg.meas_conf.meas_trig = 1 ∧
    (hdc2021_start 5 (simDriver HDC2021Regster.zero)
      { address := 0x40, regs := fun _ => 0 }).2.1._reg.device_conf.cc.val = 5 :=
  ⟨by decide, by decide,
   (start_then_stop_shadow 5 (by decide) (simDriver HDC2021Regster.zero)
      { address := 0x40, regs := fun _ => 0 }).1,
   (start_then_stop_shadow 5 (by decide) (simDriver HDC2021Regster.zero)
      { address := 0x40, regs := fun _ => 0 }).2.1⟩

/-- C8: `hdc2021_start(mode)` makes exactly one transport call, a write to the
stored bus address at register `0x05` of the 11 bytes of the shadow after the
update, in the order `temp_max, hum_max, int_en, temp_offset, hum_offset,
temp_thr_l, temp_thr_h, rh_thr_l, rh_thr_h, device_config, meas_config`, with
`device_config = int_mode | int_pol<<1 | drdy<<2 | heat<<3 | cc<<4 | reset<<7`
(`cc` the new cadence) and
`meas_config = meas_trig | meas_conf<<1 | res<<3 | hacc<<4 | tacc<<6`
(`meas_trig = 1`); it returns `HDC2021_ERR_NONE` if that write succeeds and
`HDC2021_ERR_NOT_RESPONSE` otherwise.  For the host sequence `init(0x80)`,
`setInterrupt(0x80, active low)`, `start(2)` the block written is
`00 00 80 00 00 01 FF 00 FF 24 01`. -/
theorem start_writes_whole_block :
    (∀ (V : Type) (mode : Nat) (address : Fin 256) (reg : HDC2021Regster)
        (wr : hdc2021write V) (rd : hdc2021read V) (wt : hdc2021waitmsec V) (w : V)
        (log : List Call),
      (hdc2021_start mode (Driver.traced address reg wr rd wt) (w, log)).2.2.2 =
        log ++ [Call.write address.val 0x05
          (hdc2021_start mode (Driver.traced address reg wr rd wt) (w, log)).2.1._reg.bytes] ∧
      (hdc2021_start mode (Driver.traced address reg wr rd wt) (w, log)).2.1._reg.bytes =
        [reg.temp_max.val, reg.hum_max.val, reg.int_en.val, reg.temp_offset.val,
         reg.hum_offset.val, reg.temp_thr_l.val, reg.temp_thr_h.val, reg.rh_thr_l.val,
         reg.rh_thr_h.val,
         reg.device_conf.int_mode.val ||| reg.device_conf.int_pol.val <<< 1
           ||| reg.device_conf.drdy.val <<< 2 ||| reg.device_conf.heat.val <<< 3
           ||| (mode % 8) <<< 4 ||| reg.device_conf.reset.val <<< 7,
         1 ||| reg.meas_conf.meas_conf.val <<< 1 ||| reg.meas_conf.res.val <<< 3
           ||| reg.meas_conf.hacc.val <<< 4 ||| reg.meas_conf.tacc.val <<< 6] ∧
      (hdc2021_start mode (Driver.traced address reg wr rd wt) (w, log)).2.1._reg.bytes.length
        = 11 ∧
      0x05 + 9 = HDC2021_REG_DEVICE_CONFIG ∧ 0x05 + 10 = HDC2021_REG_MEAS_CONFIG ∧
      (hdc2021_start mode (Driver.traced address reg wr rd wt) (w, log)).1 =
        (if (wr address.val 0x05
              (hdc2021_start mode (Driver.traced address reg wr rd wt) (w, log)).2.1._reg.bytes
              w).1 = true
         then HDC2021_ERR_NONE else HDC2021_ERR_NOT_RESPONSE)) ∧
    hostInitInterruptStart (simSensor 0 0 0 0 0x49 0x54 0xD0 0x07) =
      (HDC2021_ERR_NONE,
       [Call.write 0x80 0x0E [0x80], Call.wait 10, Call.read 0x80 0xFE 2,
        Call.write 0x80 0x05
          [0x00, 0x00, 0x80, 0x00, 0x00, 0x01, 0xFF, 0x00, 0xFF, 0x24, 0x01]]) := by
  refine ⟨?_, by decide⟩
  intro V mode address reg wr rd wt w log
  refine ⟨?_, ?_, rfl, rfl, rfl, ?_⟩
  · rw [start_world]
    rfl
  · rw [start_state]
    simp only [HDC2021Regster.bytes, Driver.traced, deviceConfig_data_bits,
      measConfig_data_bits]
    rfl
  · rw [start_err]
    rfl

/-- Clearing `meas_trig` leaves bits 1 to 7 of the measurement configuration
byte as they were and clears bit 0. -/
theorem measConfig_clear_trig_bits (m : HDC2021RegMeasurementConfig) (k : Nat) :
    ({ m with meas_trig := 0 } : HDC2021RegMeasurementConfig).data.testBit k =
      (if k = 0 then false else m.data.testBit k) := by
  rcases m with ⟨a, b, c, d, e⟩
  have ha : a.val < 2 := a.isLt
  cases k with
  | zero =>
    simp only [HDC2021RegMeasurementConfig.data, Nat.testBit_zero, if_true]
    have : ((0 : Fin 2).val + 2 * b.val + 8 * c.val + 16 * d.val + 64 * e.val) % 2 = 0 := by
      simp only [Fin.val_zero]
      omega
    rw [this]
    rfl
  | succ j =>
    simp only [HDC2021RegMeasurementConfig.data, Nat.testBit_succ, Nat.succ_ne_zero, if_false]
    have h1 : ((0 : Fin 2).val + 2 * b.val + 8 * c.val + 16 * d.val + 64 * e.val) / 2
        = (a.val + 2 * b.val + 8 * c.val + 16 * d.val + 64 * e.val) / 2 := by
      simp only [Fin.val_zero]
      omega
    rw [h1]

/-- C9: `hdc2021_stop()` clears the trigger bit only.  For every prior shadow
the shadow afterwards has `meas_trig = 0` and every other field as before; in
the 11-byte image bit 0 of the last byte is clear and every other bit is
unchanged.  Stop makes exactly one transport call, a write of that 11-byte
image at register `0x05` to the stored address, and returns
`HDC2021_ERR_NONE` if the write succeeds and `HDC2021_ERR_NOT_RESPONSE`
otherwise. -/
theorem stop_clears_trigger_only (V : Type) (address : Fin 256) (reg : HDC2021Regster)
    (wr : hdc2021write V) (rd : hdc2021read V) (wt : hdc2021waitmsec V) (w : V)
    (log : List Call) :
    ((hdc2021_stop (Driver.traced address reg wr rd wt) (w, log)).2.1._reg.meas_conf.meas_trig
        = 0 ∧
     (hdc2021_stop (Driver.traced address reg wr rd wt) (w, log)).2.1._reg =
        { reg with meas_conf := { reg.meas_conf with meas_trig := 0 } } ∧
     (hdc2021_stop (Driver.traced address reg wr rd wt) (w, log)).2.1._address = address) ∧
    (∀ i k : Nat,
      ((hdc2021_stop (Driver.traced address reg wr rd wt) (w, log)).2.1._reg.bytes.getD i 0).testBit
          k =
        if i = 10 ∧ k = 0 then false else (reg.bytes.getD i 0).testBit k) ∧
    (hdc2021_stop (Driver.traced address reg wr rd wt) (w, log)).2.2.2 =
      log ++ [Call.write address.val 0x05
        (hdc2021_stop (Driver.traced address reg wr rd wt) (w, log)).2.1._reg.bytes] ∧
    (hdc2021_stop (Driver.traced address reg wr rd wt) (w, log)).2.1._reg.bytes.length = 11 ∧
    (hdc2021_stop (Driver.traced address reg wr rd wt) (w, log)).1 =
      (if (wr address.val 0x05
            (hdc2021_stop (Driver.traced address reg wr rd wt) (w, log)).2.1._reg.bytes w).1
            = true
       then HDC2021_ERR_NONE else HDC2021_ERR_NOT_RESPONSE) := by
  refine ⟨⟨?_, ?_, ?_⟩, ?_, ?_, rfl, ?_⟩
  · rw [stop_state]
  · rw [stop_state]
    rfl
  · rw [stop_state]
    rfl
  · intro i k
    rw [stop_state]
    simp only [Driver.traced, HDC2021Regster.bytes]
    rcases Nat.lt_or_ge i 10 with hi | hi
    · have hne : ¬ (i = 10 ∧ k = 0) := fun h => by omega
      rw [if_neg hne]
      interval_cases i <;> rfl
    · rcases Nat.eq_or_lt_of_le hi with h10 | h11
      · subst h10
        simp only [List.getD_cons_succ, List.getD_cons_zero, true_and]
        exact measConfig_clear_trig_bits reg.meas_conf k
      · have hne : ¬ (i = 10 ∧ k = 0) := fun h => by omega
        rw [if_neg hne]
        rw [List.getD_eq_default _ 0 (by simp only [List.length_cons, List.length_nil]; omega),
          List.getD_eq_default _ 0 (by simp only [List.length_cons, List.length_nil]; omega)]
  · rw [stop_world]
    rfl
  · rw [stop_err]
    rfl

/-! ## Failed sample read (C10) -/

/-- C10: when the transport read fails, `hdc2021_readData` returns
`HDC2021_ERR_NOT_RESPONSE` with both outputs zero, whatever the output record
held and whatever the failed read left in the buffer, and leaves the driver
state (shadow, address, callbacks) unchanged; a following `hdc2021_start` or
`hdc2021_stop` whose write succeeds returns `HDC2021_ERR_NONE`. -/
theorem readData_failure_is_local (st : Driver W) (data : HDC2021Data) (w w1 : W)
    (buf : List Nat) (hread : st._read st._address.val 0x00 4 w = (false, buf, w1)) :
    (hdc2021_readData st data w).1 = HDC2021_ERR_NOT_RESPONSE ∧
    (hdc2021_readData st data w).2.1 = { temperature := 0, humidity := 0 } ∧
    (hdc2021_readData st data w).2.2.1 = st ∧
    (hdc2021_readData st data w).2.2.2 = w1 ∧
    (∀ c : Nat,
      (st._write st._address.val 0x05 (hdc2021_start c st w1).2.1._reg.bytes w1).1 = true →
      (hdc2021_start c (hdc2021_readData st data w).2.2.1
        (hdc2021_readData st data w).2.2.2).1 = HDC2021_ERR_NONE) ∧
    ((st._write st._address.val 0x05 (hdc2021_stop st w1).2.1._reg.bytes w1).1 = true →
      (hdc2021_stop (hdc2021_readData st data w).2.2.1
        (hdc2021_readData st data w).2.2.2).1 = HDC2021_ERR_NONE) := by
  rw [readData_of_read_fail st data w w1 buf hread]
  refine ⟨rfl, rfl, rfl, rfl, ?_, ?_⟩
  · intro c hc
    show (hdc2021_start c st w1).1 = HDC2021_ERR_NONE
    rw [start_err, if_pos hc]
  · intro hs
    show (hdc2021_stop st w1).1 = HDC2021_ERR_NONE
    rw [stop_err, if_pos hs]

/-- A bus on which reads fail and writes succeed: the sample read reports
`HDC2021_ERR_NOT_RESPONSE` with zero outputs, and the start that follows
succeeds. -/
theorem readData_failure_is_local_witness :
    simReadFail 0x80 0x00 4 (simSensor 0x34 0x12 0xCD 0xAB 0x49 0x54 0xD0 0x07) =
      (false, [0xAA, 0xAA, 0xAA, 0xAA], simSensor 0x34 0x12 0xCD 0xAB 0x49 0x54 0xD0 0x07) ∧
    (hdc2021_readData
      ({ simDriver HDC2021Regster.zero with _read := simReadFail } : Driver SimDevice) ⟨7, 7⟩
      (simSensor 0x34 0x12 0xCD 0xAB 0x49 0x54 0xD0 0x07)).1 = HDC2021_ERR_NOT_RESPONSE ∧
    (hdc2021_readData
      ({ simDriver HDC2021Regster.zero with _read := simReadFail } : Driver SimDevice) ⟨7, 7⟩
      (simSensor 0x34 0x12 0xCD 0xAB 0x49 0x54 0xD0 0x07)).2.1 =
        { temperature := 0, humidity := 0 } ∧
    (hdc2021_start 2
      (hdc2021_readData
        ({ simDriver HDC2021Regster.zero with _read := simReadFail } : Driver SimDevice) ⟨7, 7⟩
        (simSensor 0x34 0x12 0xCD 0xAB 0x49 0x54 0xD0 0x07)).2.2.1
      (hdc2021_readData
        ({ simDriver HDC2021Regster.zero with _read := simReadFail } : Driver SimDevice) ⟨7, 7⟩
        (simSensor 0x34 0x12 0xCD 0xAB 0x49 0x54 0xD0 0x07)).2.2.2).1 = HDC2021_ERR_NONE :=
  ⟨rfl,
   (readData_failure_is_local
      ({ simDriver HDC2021Regster.zero with _read := simReadFail } : Driver SimDevice) ⟨7, 7⟩
      (simSensor 0x34 0x12 0xCD 0xAB 0x49 0x54 0xD0 0x07)
      (simSensor 0x34 0x12 0xCD 0xAB 0x49 0x54 0xD0 0x07) [0xAA, 0xAA, 0xAA, 0xAA] rfl).1,
   (readData_failure_is_local
      ({ simDriver HDC2021Regster.zero with _read := simReadFail } : Driver SimDevice) ⟨7, 7⟩
      (simSensor 0x34 0x12 0xCD 0xAB 0x49 0x54 0xD0 0x07)
      (simSensor 0x34 0x12 0xCD 0xAB 0x49 0x54 0xD0 0x07) [0xAA, 0xAA, 0xAA, 0xAA] rfl).2.1,
   (readData_failure_is_local
      ({ simDriver HDC2021Regster.zero with _read := simReadFail } : Driver SimDevice) ⟨7, 7⟩
      (simSensor 0x34 0x12 0xCD 0xAB 0x49 0x54 0xD0 0x07)
      (simSensor 0x34 0x12 0xCD 0xAB 0x49 0x54 0xD0 0x07) [0xAA, 0xAA, 0xAA, 0xAA] rfl).2.2.2.2.1
      2 rfl⟩

/-! ## Status read and interrupt configuration (C11 - C13) -/

/-- What `hdc2021_readStatus` returns, in terms of its read. -/
theorem readStatus_unfold (st : Driver W) (status : Fin 256) (w : W) :
    hdc2021_readStatus st status w =
      (if (st._read st._address.val 0x04 1 w).1 = true then HDC2021_ERR_NONE
        else HDC2021_ERR_NOT_RESPONSE,
       status, st, (st._read st._address.val 0x04 1 w).2.2) := by
  unfold hdc2021_readStatus hdc2021Read
  simp only [HDC2021_REG_STATUS]
  rcases st._read st._address.val 0x04 1 w with ⟨ok, buf, w1⟩
  cases ok <;> rfl

/-- What `hdc2021_readData` returns beside the sample, in terms of its read. -/
theorem readData_unfold (st : Driver W) (data : HDC2021Data) (w : W) :
    (hdc2021_readData st data w).1 =
      (if (st._read st._address.val 0x00 4 w).1 = true then HDC2021_ERR_NONE
        else HDC2021_ERR_NOT_RESPONSE) ∧
    (hdc2021_readData st data w).2.2.1 = st ∧
    (hdc2021_readData st data w).2.2.2 = (st._read st._address.val 0x00 4 w).2.2 := by
  unfold hdc2021_readData hdc2021Read
  simp only [HDC2021_REG_TEMP_LOW]
  rcases st._read st._address.val 0x00 4 w with ⟨ok, buf, w1⟩
  cases ok <;> exact ⟨rfl, rfl, rfl⟩

/-- C11, the code at the failing input: the caller's status object holds
`0x00`, the read of one byte at register `0x04` succeeds and delivers `0x80`
(data ready); `hdc2021_readStatus` returns `HDC2021_ERR_NONE` and the caller's
object still holds `0x00`, not `0x80`.  In general the object is returned as it
was passed in. -/
theorem readStatus_never_stores_status :
    (∀ (V : Type) (st : Driver V) (status : Fin 256) (w : V),
      (hdc2021_readStatus st status w).2.1 = status) ∧
    simRead 0x80 0x04 1 { address := 0x80, regs := fun r => if r = 0x04 then 0x80 else 0 }
      = (true, [0x80], { address := 0x80, regs := fun r => if r = 0x04 then 0x80 else 0 }) ∧
    (hdc2021_readStatus (simDriver HDC2021Regster.zero) 0x00
      { address := 0x80, regs := fun r => if r = 0x04 then 0x80 else 0 }).1
      = HDC2021_ERR_NONE ∧
    (hdc2021_readStatus (simDriver HDC2021Regster.zero) 0x00
      { address := 0x80, regs := fun r => if r = 0x04 then 0x80 else 0 }).2.1 = 0x00 ∧
    (hdc2021_readStatus (simDriver HDC2021Regster.zero) 0x00
      { address := 0x80, regs := fun r => if r = 0x04 then 0x80 else 0 }).2.1 ≠ 0x80 := by
  refine ⟨?_, rfl, by decide, by decide, by decide⟩
  intro V st status w
  rw [readStatus_unfold]

/-- The shadow after `hdc2021_setInterrupt`, in closed form. -/
theorem setInterrupt_state (int_en pol : Nat) (st : Driver W) :
    hdc2021_setInterrupt int_en pol st =
      { st with _reg := { st._reg with
          int_en := toUInt8 int_en,
          device_conf := { st._reg.device_conf with
            int_pol := ⟨pol % 2, Nat.mod_lt pol (by decide)⟩,
            drdy := if int_en % 256 = 0 then 0 else 1 } } } := by
  unfold hdc2021_setInterrupt
  by_cases h : int_en % 256 = 0
  · simp [h, HDC2021_INT_EN_NONE]
  · simp [h, HDC2021_INT_EN_NONE]

/-- C12: `hdc2021_setInterrupt` is idempotent and purely local: for every mask,
polarity and prior state, calling it twice leaves exactly the state (shadow,
address, callbacks) that calling it once leaves, the callbacks and the address
are the prior ones, and no transport call is made: with logging callbacks the
world and the call log are the same after two calls as before. -/
theorem setInterrupt_idempotent_and_local (V : Type) (int_en pol : Nat) (address : Fin 256)
    (reg : HDC2021Regster) (wr : hdc2021write V) (rd : hdc2021read V)
    (wt : hdc2021waitmsec V) (w : V) (log : List Call) :
    hdc2021_setInterrupt int_en pol
        (hdc2021_setInterrupt int_en pol (Driver.traced address reg wr rd wt)) =
      hdc2021_setInterrupt int_en pol (Driver.traced address reg wr rd wt) ∧
    (hdc2021_setInterrupt int_en pol (Driver.traced address reg wr rd wt))._write
      = tracedWrite wr ∧
    (hdc2021_setInterrupt int_en pol (Driver.traced address reg wr rd wt))._read
      = tracedRead rd ∧
    (hdc2021_setInterrupt int_en pol (Driver.traced address reg wr rd wt))._wait
      = tracedWait wt ∧
    (hdc2021_setInterrupt int_en pol (Driver.traced address reg wr rd wt))._address
      = address ∧
    (runOps [Op.setInterrupt int_en pol, Op.setInterrupt int_en pol]
      (Driver.traced address reg wr rd wt) (w, log)).1._reg =
      (runOps [Op.setInterrupt int_en pol] (Driver.traced address reg wr rd wt) (w, log)).1._reg ∧
    (runOps [Op.setInterrupt int_en pol, Op.setInterrupt int_en pol]
      (Driver.traced address reg wr rd wt) (w, log)).2 = (w, log) := by
  have hi : hdc2021_setInterrupt int_en pol
        (hdc2021_setInterrupt int_en pol (Driver.traced address reg wr rd wt)) =
      hdc2021_setInterrupt int_en pol (Driver.traced address reg wr rd wt) := by
    rw [setInterrupt_state, setInterrupt_state]
  refine ⟨hi, ?_, ?_, ?_, ?_, ?_, rfl⟩
  · rw [setInterrupt_state]; rfl
  · rw [setInterrupt_state]; rfl
  · rw [setInterrupt_state]; rfl
  · rw [setInterrupt_state]; rfl
  · show (hdc2021_setInterrupt int_en pol
        (hdc2021_setInterrupt int_en pol (Driver.traced address reg wr rd wt)))._reg = _
    rw [hi]
    rfl

/-- C13: for every 8-bit mask, polarity 0 or 1 and prior state, after
`hdc2021_setInterrupt(mask, pol)` the interrupt enable byte of the shadow is
`mask`, `int_pol` is `pol`, `drdy` is 0 for the mask 0 and 1 for any other
mask, and every other field of the shadow (`cc`, `heat`, `int_mode`, `reset`,
the measurement configuration, the thresholds, offsets and maximum registers)
is as before. -/
theorem setInterrupt_shadow (mask pol : Nat) (hm : mask < 256) (hp : pol < 2)
    (st : Driver W) :
    (hdc2021_setInterrupt mask pol st)._reg.int_en.val = mask ∧
    (hdc2021_setInterrupt mask pol st)._reg.device_conf.int_pol.val = pol ∧
    (hdc2021_setInterrupt mask pol st)._reg.device_conf.drdy.val
      = (if mask = HDC2021_INT_EN_NONE then 0 else 1) ∧
    (hdc2021_setInterrupt mask pol st)._reg =
      { st._reg with
        int_en := ⟨mask, hm⟩,
        device_conf := { st._reg.device_conf with
          int_pol := ⟨pol, hp⟩,
          drdy := if mask = 0 then 0 else 1 } } := by
  rw [setInterrupt_state]
  have e1 : mask % 256 = mask := Nat.mod_eq_of_lt hm
  have e2 : pol % 2 = pol := Nat.mod_eq_of_lt hp
  refine ⟨e1, e2, ?_, ?_⟩
  · simp only [e1, HDC2021_INT_EN_NONE]
    split <;> rfl
  · simp only [toUInt8, e1, e2]

/-- The mask `HDC2021_INT_EN_DRDY` with active-high polarity, and the empty
mask, on the zero shadow. -/
theorem setInterrupt_shadow_witness :
    (0x80 < 256 ∧ 1 < 2) ∧
    (hdc2021_setInterrupt 0x80 1 (simDriver HDC2021Regster.zero))._reg.bytes
      = [0, 0, 0x80, 0, 0, 0, 0, 0, 0, 0x06, 0] ∧
    (hdc2021_setInterrupt 0x80 1 (simDriver HDC2021Regster.zero))._reg.device_conf.drdy.val
      = 1 ∧
    (hdc2021_setInterrupt 0 1 (simDriver HDC2021Regster.zero))._reg.device_conf.drdy.val
      = 0 :=
  ⟨⟨by decide, by decide⟩, by decide,
   (setInterrupt_shadow 0x80 1 (by decide) (by decide) (simDriver HDC2021Regster.zero)).2.2.1,
   (setInterrupt_shadow 0 1 (by decide) (by decide) (simDriver HDC2021Regster.zero)).2.2.1⟩

/-! ## Initialisation: shadow, call trace, no lifecycle state (C14 - C16) -/

/-- The driver state after `hdc2021_init`, whatever it returns. -/
theorem init_state (address : Nat) (write : hdc2021write W) (read : hdc2021read W)
    (wait : hdc2021waitmsec W) (st : Driver W) (w : W) :
    (hdc2021_init address write read wait st w).2.1 = initState address write read wait := by
  rw [init_unfold]
  split <;> rfl

/-- One host call keeps the stored callbacks and the stored address. -/
theorem Op.run_keeps (op : Op) (st : Driver W) (w : W) :
    (op.run st w).1._write = st._write ∧ (op.run st w).1._read = st._read ∧
    (op.run st w).1._wait = st._wait ∧ (op.run st w).1._address = st._address := by
  cases op with
  | start mode =>
    show (hdc2021_start mode st w).2.1._write = _ ∧ (hdc2021_start mode st w).2.1._read = _ ∧
      (hdc2021_start mode st w).2.1._wait = _ ∧ (hdc2021_start mode st w).2.1._address = _
    rw [start_state]
    exact ⟨rfl, rfl, rfl, rfl⟩
  | stop =>
    show (hdc2021_stop st w).2.1._write = _ ∧ (hdc2021_stop st w).2.1._read = _ ∧
      (hdc2021_stop st w).2.1._wait = _ ∧ (hdc2021_stop st w).2.1._address = _
    rw [stop_state]
    exact ⟨rfl, rfl, rfl, rfl⟩
  | setInterrupt int_en pol =>
    show (hdc2021_setInterrupt int_en pol st)._write = _ ∧
      (hdc2021_setInterrupt int_en pol st)._read = _ ∧
      (hdc2021_setInterrupt int_en pol st)._wait = _ ∧
      (hdc2021_setInterrupt int_en pol st)._address = _
    rw [setInterrupt_state]
    exact ⟨rfl, rfl, rfl, rfl⟩
  | readData data =>
    show (hdc2021_readData st data w).2.2.1._write = _ ∧
      (hdc2021_readData st data w).2.2.1._read = _ ∧
      (hdc2021_readData st data w).2.2.1._wait = _ ∧
      (hdc2021_readData st data w).2.2.1._address = _
    rw [(readData_unfold st data w).2.1]
    exact ⟨rfl, rfl, rfl, rfl⟩
  | readStatus status =>
    show (hdc2021_readStatus st status w).2.2.1._write = _ ∧
      (hdc2021_readStatus st status w).2.2.1._read = _ ∧
      (hdc2021_readStatus st status w).2.2.1._wait = _ ∧
      (hdc2021_readStatus st status w).2.2.1._address = _
    rw [readStatus_unfold]
    exact ⟨rfl, rfl, rfl, rfl⟩

/-- A sequence of host calls keeps the stored callbacks and the stored address. -/
theorem runOps_keeps (ops : List Op) (st : Driver W) (w : W) :
    (runOps ops st w).1._write = st._write ∧ (runOps ops st w).1._read = st._read ∧
    (runOps ops st w).1._wait = st._wait ∧ (runOps ops st w).1._address = st._address := by
  induction ops generalizing st w with
  | nil => exact ⟨rfl, rfl, rfl, rfl⟩
  | cons op ops ih =>
    obtain ⟨h1, h2, h3, h4⟩ := ih (op.run st w).1 (op.run st w).2
    obtain ⟨k1, k2, k3, k4⟩ := Op.run_keeps op st w
    exact ⟨h1.trans k1, h2.trans k2, h3.trans k3, h4.trans k4⟩

/-- C14: after any call of `hdc2021_init`, whatever it returns and whatever
state the driver was in, the shadow holds the power-on defaults, the 11 bytes
`00 00 00 00 00 01 FF 00 FF 00 00` (thresholds `01 FF 00 FF`, everything else
zero, the `reset` bit included), and the stored bus address is the address
argument. -/
theorem init_restores_defaults (address : Nat) (ha : address < 256) (write : hdc2021write W)
    (read : hdc2021read W) (wait : hdc2021waitmsec W) (st : Driver W) (w : W) :
    (hdc2021_init address write read wait st w).2.1._reg.bytes =
      [0x00, 0x00, 0x00, 0x00, 0x00, 0x01, 0xFF, 0x00, 0xFF, 0x00, 0x00] ∧
    (hdc2021_init address write read wait st w).2.1._reg =
      { HDC2021Regster.zero with
        temp_thr_l := 0x01, temp_thr_h := 0xFF, rh_thr_l := 0x00, rh_thr_h := 0xFF } ∧
    (hdc2021_init address write read wait st w).2.1._reg.device_conf.reset = 0 ∧
    (hdc2021_init address write read wait st w).2.1._address.val = address := by
  rw [init_state]
  exact ⟨rfl, rfl, rfl, Nat.mod_eq_of_lt ha⟩

/-- Initialisation over a configured, measuring driver on a bus where the
device does not answer: init fails and the shadow is the default one. -/
theorem init_restores_defaults_witness :
    0x80 < 256 ∧
    (hdc2021_start 7 (hdc2021_setInterrupt 0xF8 1 (simDriver HDC2021Regster.zero))
      (simSensor 0 0 0 0 0x49 0x54 0xD0 0x07)).2.1._reg.bytes
      = [0, 0, 0xF8, 0, 0, 0, 0, 0, 0, 0x76, 0x01] ∧
    (hdc2021_init 0x80 simWrite simRead simWait
      (hdc2021_start 7 (hdc2021_setInterrupt 0xF8 1 (simDriver HDC2021Regster.zero))
        (simSensor 0 0 0 0 0x49 0x54 0xD0 0x07)).2.1
      { address := 0x40, regs := fun _ => 0 }).1 = HDC2021_ERR_NOT_CONNECT ∧
    (hdc2021_init 0x80 simWrite simRead simWait
      (hdc2021_start 7 (hdc2021_setInterrupt 0xF8 1 (simDriver HDC2021Regster.zero))
        (simSensor 0 0 0 0 0x49 0x54 0xD0 0x07)).2.1
      { address := 0x40, regs := fun _ => 0 }).2.1._reg.bytes
      = [0x00, 0x00, 0x00, 0x00, 0x00, 0x01, 0xFF, 0x00, 0xFF, 0x00, 0x00] :=
  ⟨by decide, by decide, by decide,
   (init_restores_defaults 0x80 (by decide) simWrite simRead simWait
      (hdc2021_start 7 (hdc2021_setInterrupt 0xF8 1 (simDriver HDC2021Regster.zero))
        (simSensor 0 0 0 0 0x49 0x54 0xD0 0x07)).2.1
      { address := 0x40, regs := fun _ => 0 }).1⟩

/-- The call log of `hdc2021_init` on logging callbacks. -/
theorem init_log (V : Type) (address : Nat) (wr : hdc2021write V) (rd : hdc2021read V)
    (wt : hdc2021waitmsec V) (st : Driver (V × List Call)) (w : V) (log : List Call) :
    (hdc2021_init address (tracedWrite wr) (tracedRead rd) (tracedWait wt) st (w, log)).2.2.2 =
      log ++ [Call.write (address % 256) 0x0E [0x80], Call.wait 10] ++
        (if (wr (address % 256) 0x0E [0x80] w).1 = true
          then [Call.read (address % 256) 0xFE 2] else []) := by
  rw [init_unfold]
  have hw : (tracedWrite wr (address % 256) 0x0E [0x80] (w, log)).1 =
      (wr (address % 256) 0x0E [0x80] w).1 := rfl
  rw [hw]
  by_cases h : (wr (address % 256) 0x0E [0x80] w).1 = true
  · simp only [h, if_true]
    rw [checkID_world]
    simp [initState, tracedRead, tracedWait, tracedWrite, toUInt8]
  · simp only [h]
    simp [tracedWait, tracedWrite]

/-- C15: every call of `hdc2021_init` makes these transport calls and no
other: one write to the address argument at register `0x0E` of the single byte
`0x80`; then one wait of 10 ms, whether or not that write succeeded; then, only
if the write succeeded, one read of 2 bytes at register `0xFE`. -/
theorem init_call_trace (V : Type) (address : Nat) (wr : hdc2021write V) (rd : hdc2021read V)
    (wt : hdc2021waitmsec V) (st : Driver (V × List Call)) (w : V) (log : List Call) :
    (hdc2021_init address (tracedWrite wr) (tracedRead rd) (tracedWait wt) st (w, log)).2.2.2 =
      log ++ [Call.write (address % 256) 0x0E [0x80], Call.wait 10] ++
        (if (wr (address % 256) 0x0E [0x80] w).1 = true
          then [Call.read (address % 256) 0xFE 2] else []) :=
  init_log V address wr rd wt st w log

/-- `hdc2021_init` returns `HDC2021_ERR_NOT_CONNECT` exactly when the reset
write fails. -/
theorem init_not_connect_iff (address : Nat) (write : hdc2021write W)
    (read : hdc2021read W) (wait : hdc2021waitmsec W) (st : Driver W) (w : W) :
    (hdc2021_init address write read wait st w).1 = HDC2021_ERR_NOT_CONNECT ↔
      (write (address % 256) 0x0E [0x80] w).1 = false := by
  rw [init_err]
  by_cases hw : (write (address % 256) 0x0E [0x80] w).1 = true
  · simp only [hw, if_true]
    constructor
    · intro h
      split at h
      · split at h <;> exact absurd h (by decide)
      · exact absurd h (by decide)
    · intro h
      exact absurd h (by decide)
  · simp [hw]

/-- C16, as stated, fails: on a bus that is down for its first transaction
`hdc2021_init` returns `HDC2021_ERR_NOT_CONNECT`, and the `hdc2021_start`,
`hdc2021_stop`, `hdc2021_readData` and `hdc2021_readStatus` that follow, without
a second init, all return `HDC2021_ERR_NONE`. -/
theorem calls_after_failed_init_succeed :
    hostAfterFailedInit =
      [HDC2021_ERR_NOT_CONNECT, HDC2021_ERR_NONE, HDC2021_ERR_NONE, HDC2021_ERR_NONE,
       HDC2021_ERR_NONE] ∧
    hostAfterFailedInit.tail ≠
      [HDC2021_ERR_NOT_RESPONSE, HDC2021_ERR_NOT_RESPONSE, HDC2021_ERR_NOT_RESPONSE,
       HDC2021_ERR_NOT_RESPONSE] ∧
    HDC2021_ERR_NONE ∈ hostAfterFailedInit.tail := by
  decide

/-- C16 (amended): a failed reset write makes `hdc2021_init` return
`HDC2021_ERR_NOT_CONNECT` and blocks nothing, the driver keeps no lifecycle
state: after such an init and any further host calls, each of `hdc2021_start`,
`hdc2021_stop`, `hdc2021_readData`, `hdc2021_readStatus` returns
`HDC2021_ERR_NONE` if its own transport call succeeds and
`HDC2021_ERR_NOT_RESPONSE` if it fails. -/
theorem failed_init_blocks_nothing (address : Nat) (wr : hdc2021write W) (rd : hdc2021read W)
    (wt : hdc2021waitmsec W) (st s : Driver W) (w w2 : W) (ops : List Op) (mode : Nat)
    (data : HDC2021Data) (status : Fin 256)
    (hinit : (hdc2021_init address wr rd wt st w).1 = HDC2021_ERR_NOT_CONNECT)
    (hs : s = (runOps ops (hdc2021_init address wr rd wt st w).2.1
      (hdc2021_init address wr rd wt st w).2.2).1) :
    (wr (address % 256) 0x0E [0x80] w).1 = false ∧
    (hdc2021_start mode s w2).1 =
      (if (wr (address % 256) 0x05 (hdc2021_start mode s w2).2.1._reg.bytes w2).1 = true
        then HDC2021_ERR_NONE else HDC2021_ERR_NOT_RESPONSE) ∧
    (hdc2021_stop s w2).1 =
      (if (wr (address % 256) 0x05 (hdc2021_stop s w2).2.1._reg.bytes w2).1 = true
        then HDC2021_ERR_NONE else HDC2021_ERR_NOT_RESPONSE) ∧
    (hdc2021_readData s data w2).1 =
      (if (rd (address % 256) 0x00 4 w2).1 = true
        then HDC2021_ERR_NONE else HDC2021_ERR_NOT_RESPONSE) ∧
    (hdc2021_readStatus s status w2).1 =
      (if (rd (address % 256) 0x04 1 w2).1 = true
        then HDC2021_ERR_NONE else HDC2021_ERR_NOT_RESPONSE) := by
  obtain ⟨k1, k2, _, k4⟩ := runOps_keeps ops (hdc2021_init address wr rd wt st w).2.1
    (hdc2021_init address wr rd wt st w).2.2
  rw [← hs, init_state] at k1 k2 k4
  have e1 : s._write = wr := k1
  have e2 : s._read = rd := k2
  have e4 : s._address.val = address % 256 := by rw [k4]; rfl
  refine ⟨(init_not_connect_iff address wr rd wt st w).1 hinit, ?_, ?_, ?_, ?_⟩
  · rw [start_err, e1, e4]
  · rw [stop_err, e1, e4]
  · rw [(readData_unfold s data w2).1, e2, e4]
  · rw [readStatus_unfold, e2, e4]

/-- The bus that is down for one transaction: init returns
`HDC2021_ERR_NOT_CONNECT`, and after a `hdc2021_setInterrupt` the start on the
recovered bus returns `HDC2021_ERR_NONE`. -/
theorem failed_init_blocks_nothing_witness :
    (hdc2021_init 0x80 flakyWrite flakyRead flakyWait Driver.initial
      (1, simSensor 0 0 0 0 0x49 0x54 0xD0 0x07)).1 = HDC2021_ERR_NOT_CONNECT ∧
    (hdc2021_start 2
      (runOps [Op.setInterrupt 0x80 0]
        (hdc2021_init 0x80 flakyWrite flakyRead flakyWait Driver.initial
          (1, simSensor 0 0 0 0 0x49 0x54 0xD0 0x07)).2.1
        (hdc2021_init 0x80 flakyWrite flakyRead flakyWait Driver.initial
          (1, simSensor 0 0 0 0 0x49 0x54 0xD0 0x07)).2.2).1
      (0, simSensor 0 0 0 0 0x49 0x54 0xD0 0x07)).1 = HDC2021_ERR_NONE :=
  ⟨by decide,
   ((failed_init_blocks_nothing 0x80 flakyWrite flakyRead flakyWait Driver.initial _
      (1, simSensor 0 0 0 0 0x49 0x54 0xD0 0x07) (0, simSensor 0 0 0 0 0x49 0x54 0xD0 0x07)
      [Op.setInterrupt 0x80 0] 2 ⟨0, 0⟩ 0 (by decide) rfl).2.1).trans (if_pos (by decide))⟩

/-! ## Reads (C17) -/

/-- C17: reads are stateless probes.  For every prior state and transport,
`hdc2021_readData` makes exactly one transport call, a read of 4 bytes at
register `0x00` to the stored address, and `hdc2021_readStatus` exactly one, a
read of 1 byte at register `0x04`; neither writes or waits, neither changes the
driver state (so no bit of the shadow), and each returns `HDC2021_ERR_NONE` if
its read succeeded and `HDC2021_ERR_NOT_RESPONSE` otherwise. -/
theorem reads_are_stateless_probes (V : Type) (address : Fin 256) (reg : HDC2021Regster)
    (wr : hdc2021write V) (rd : hdc2021read V) (wt : hdc2021waitmsec V) (w : V)
    (log : List Call) (data : HDC2021Data) (status : Fin 256) :
    ((hdc2021_readData (Driver.traced address reg wr rd wt) data (w, log)).2.2.2.2 =
        log ++ [Call.read address.val 0x00 4] ∧
     (hdc2021_readData (Driver.traced address reg wr rd wt) data (w, log)).2.2.1 =
        Driver.traced address reg wr rd wt ∧
     (hdc2021_readData (Driver.traced address reg wr rd wt) data (w, log)).2.2.1._reg = reg ∧
     (hdc2021_readData (Driver.traced address reg wr rd wt) data (w, log)).1 =
        (if (rd address.val 0x00 4 w).1 = true then HDC2021_ERR_NONE
          else HDC2021_ERR_NOT_RESPONSE)) ∧
    ((hdc2021_readStatus (Driver.traced address reg wr rd wt) status (w, log)).2.2.2.2 =
        log ++ [Call.read address.val 0x04 1] ∧
     (hdc2021_readStatus (Driver.traced address reg wr rd wt) status (w, log)).2.2.1 =
        Driver.traced address reg wr rd wt ∧
     (hdc2021_readStatus (Driver.traced address reg wr rd wt) status (w, log)).2.2.1._reg
        = reg ∧
     (hdc2021_readStatus (Driver.traced address reg wr rd wt) status (w, log)).1 =
        (if (rd address.val 0x04 1 w).1 = true then HDC2021_ERR_NONE
          else HDC2021_ERR_NOT_RESPONSE)) := by
  obtain ⟨h1, h2, h3⟩ := readData_unfold (Driver.traced address reg wr rd wt) data (w, log)
  constructor
  · refine ⟨?_, h2, ?_, ?_⟩
    · rw [h3]; rfl
    · rw [h2]; rfl
    · rw [h1]; rfl
  · rw [readStatus_unfold]
    exact ⟨rfl, rfl, rfl, rfl⟩

/-! ## Range and monotonicity of the conversion (C18, C20) -/

/-- The truncated quotient of the temperature expression on an `int16_t` word. -/
theorem temperature_quotient_range (raw : Int) (h1 : -32768 ≤ raw) (h2 : raw ≤ 32767) :
    -825 ≤ Int.tdiv (raw * 100) 3971 ∧ Int.tdiv (raw * 100) 3971 ≤ 825 := by
  rw [tdiv_of_pos _ 3971 (by decide)]
  split <;> omega

/-- The truncated quotient of the humidity expression on an `int16_t` word. -/
theorem humidity_quotient_range (raw : Int) (h1 : -32768 ≤ raw) (h2 : raw ≤ 32767) :
    -50 ≤ Int.tdiv (raw * 10) 6553 ∧ Int.tdiv (raw * 10) 6553 ≤ 50 := by
  rw [tdiv_of_pos _ 6553 (by decide)]
  split <;> omega

/-- Truncating division by a positive literal is monotone. -/
theorem tdiv_mono_3971 (x y : Int) (h : x ≤ y) : Int.tdiv x 3971 ≤ Int.tdiv y 3971 := by
  rw [tdiv_of_pos x 3971 (by decide), tdiv_of_pos y 3971 (by decide)]
  split <;> split <;> omega

theorem tdiv_mono_6553 (x y : Int) (h : x ≤ y) : Int.tdiv x 6553 ≤ Int.tdiv y 6553 := by
  rw [tdiv_of_pos x 6553 (by decide), tdiv_of_pos y 6553 (by decide)]
  split <;> split <;> omega

/-- C18: for every pair of raw words of a successful read the temperature
output lies in `[-1225, 425]` and the humidity output in `[-50, 50]`; the
quotients `(t * 100) / 3971` and `(h * 10) / 6553` fit a signed 16-bit integer,
so neither `int16_t` cast nor the subtraction of 400 wraps.  The bounds are
attained: raw temperature `0x7FFF` gives 425 and `0x8000` gives -1225, raw
humidity `0x7FFF` gives 50 and `0x8000` gives -50. -/
theorem conversion_output_ranges :
    (∀ raw : Int, -32768 ≤ raw → raw ≤ 32767 →
      (-32768 ≤ Int.tdiv (raw * 100) 3971 ∧ Int.tdiv (raw * 100) 3971 ≤ 32767) ∧
      (-32768 ≤ Int.tdiv (raw * 10) 6553 ∧ Int.tdiv (raw * 10) 6553 ≤ 32767) ∧
      toInt16 (Int.tdiv (raw * 100) 3971) = Int.tdiv (raw * 100) 3971 ∧
      toInt16 (Int.tdiv (raw * 10) 6553) = Int.tdiv (raw * 10) 6553 ∧
      toInt16 (Int.tdiv (raw * 100) 3971 - 400) = Int.tdiv (raw * 100) 3971 - 400 ∧
      convTemperature raw = Int.tdiv (raw * 100) 3971 - 400 ∧
      convHumidity raw = Int.tdiv (raw * 10) 6553 ∧
      (-1225 ≤ convTemperature raw ∧ convTemperature raw ≤ 425) ∧
      (-50 ≤ convHumidity raw ∧ convHumidity raw ≤ 50)) ∧
    (∀ (V : Type) (st : Driver V) (data : HDC2021Data) (w w1 : V) (buf : List Nat),
      st._read st._address.val 0x00 4 w = (true, buf, w1) →
      (-1225 ≤ (hdc2021_readData st data w).2.1.temperature ∧
       (hdc2021_readData st data w).2.1.temperature ≤ 425) ∧
      (-50 ≤ (hdc2021_readData st data w).2.1.humidity ∧
       (hdc2021_readData st data w).2.1.humidity ≤ 50)) ∧
    (hdc2021_readData (simDriver HDC2021Regster.zero) ⟨0, 0⟩
      (simSensor 0xFF 0x7F 0x00 0x80 0x49 0x54 0xD0 0x07)).2.1
        = { temperature := 425, humidity := -50 } ∧
    (hdc2021_readData (simDriver HDC2021Regster.zero) ⟨0, 0⟩
      (simSensor 0x00 0x80 0xFF 0x7F 0x49 0x54 0xD0 0x07)).2.1
        = { temperature := -1225, humidity := 50 } := by
  have key : ∀ raw : Int, -32768 ≤ raw → raw ≤ 32767 →
      (-1225 ≤ convTemperature raw ∧ convTemperature raw ≤ 425) ∧
      (-50 ≤ convHumidity raw ∧ convHumidity raw ≤ 50) := by
    intro raw h1 h2
    have qt := temperature_quotient_range raw h1 h2
    have qh := humidity_quotient_range raw h1 h2
    rw [convTemperature_eq raw h1 h2, convHumidity_eq raw h1 h2]
    omega
  refine ⟨?_, ?_, by decide, by decide⟩
  · intro raw h1 h2
    have qt := temperature_quotient_range raw h1 h2
    have qh := humidity_quotient_range raw h1 h2
    refine ⟨by omega, by omega, toInt16_of_range _ (by omega) (by omega),
      toInt16_of_range _ (by omega) (by omega), toInt16_of_range _ (by omega) (by omega),
      convTemperature_eq raw h1 h2, convHumidity_eq raw h1 h2, (key raw h1 h2).1,
      (key raw h1 h2).2⟩
  · intro V st data w w1 buf hread
    rw [readData_of_read_ok st data w w1 buf hread]
    have r0 : -32768 ≤ int16At buf 0 ∧ int16At buf 0 ≤ 32767 := toInt16_range _
    have r1 : -32768 ≤ int16At buf 1 ∧ int16At buf 1 ≤ 32767 := toInt16_range _
    exact ⟨(key _ r0.1 r0.2).1, (key _ r1.1 r1.2).2⟩

/-- The range at the reply `34 12 CD AB` of the simulated device (raw words
4660 and -21555, outputs -283 and -32). -/
theorem conversion_output_ranges_witness :
    simRead 0x80 0x00 4 (simSensor 0x34 0x12 0xCD 0xAB 0x49 0x54 0xD0 0x07)
      = (true, [0x34, 0x12, 0xCD, 0xAB], simSensor 0x34 0x12 0xCD 0xAB 0x49 0x54 0xD0 0x07) ∧
    ((-1225 ≤ (hdc2021_readData (simDriver HDC2021Regster.zero) ⟨7, 7⟩
        (simSensor 0x34 0x12 0xCD 0xAB 0x49 0x54 0xD0 0x07)).2.1.temperature ∧
      (hdc2021_readData (simDriver HDC2021Regster.zero) ⟨7, 7⟩
        (simSensor 0x34 0x12 0xCD 0xAB 0x49 0x54 0xD0 0x07)).2.1.temperature ≤ 425) ∧
     (-50 ≤ (hdc2021_readData (simDriver HDC2021Regster.zero) ⟨7, 7⟩
        (simSensor 0x34 0x12 0xCD 0xAB 0x49 0x54 0xD0 0x07)).2.1.humidity ∧
      (hdc2021_readData (simDriver HDC2021Regster.zero) ⟨7, 7⟩
        (simSensor 0x34 0x12 0xCD 0xAB 0x49 0x54 0xD0 0x07)).2.1.humidity ≤ 50)) :=
  ⟨rfl, conversion_output_ranges.2.1 SimDevice (simDriver HDC2021Regster.zero) ⟨7, 7⟩
    (simSensor 0x34 0x12 0xCD 0xAB 0x49 0x54 0xD0 0x07)
    (simSensor 0x34 0x12 0xCD 0xAB 0x49 0x54 0xD0 0x07) [0x34, 0x12, 0xCD, 0xAB] rfl⟩

/-- C20: the conversion of `hdc2021_readData` is monotone in the signed raw
words: for signed 16-bit values `a ≤ b` the temperature output for `a` is at
most that for `b`, and likewise the humidity output; so for two successful
reads the outputs are ordered as the words read. -/
theorem conversion_monotone :
    (∀ a b : Int, -32768 ≤ a → a ≤ b → b ≤ 32767 →
      convTemperature a ≤ convTemperature b ∧ convHumidity a ≤ convHumidity b) ∧
    (∀ (V : Type) (st : Driver V) (d1 d2 : HDC2021Data) (w1 w2 v1 v2 : V)
        (buf1 buf2 : List Nat),
      st._read st._address.val 0x00 4 w1 = (true, buf1, v1) →
      st._read st._address.val 0x00 4 w2 = (true, buf2, v2) →
      (int16At buf1 0 ≤ int16At buf2 0 →
        (hdc2021_readData st d1 w1).2.1.temperature
          ≤ (hdc2021_readData st d2 w2).2.1.temperature) ∧
      (int16At buf1 1 ≤ int16At buf2 1 →
        (hdc2021_readData st d1 w1).2.1.humidity
          ≤ (hdc2021_readData st d2 w2).2.1.humidity)) := by
  have key : ∀ a b : Int, -32768 ≤ a → a ≤ b → b ≤ 32767 →
      convTemperature a ≤ convTemperature b ∧ convHumidity a ≤ convHumidity b := by
    intro a b ha hab hb
    rw [convTemperature_eq a ha (by omega), convTemperature_eq b (by omega) hb,
      convHumidity_eq a ha (by omega), convHumidity_eq b (by omega) hb]
    have t := tdiv_mono_3971 (a * 100) (b * 100) (by omega)
    have h := tdiv_mono_6553 (a * 10) (b * 10) (by omega)
    exact ⟨by omega, h⟩
  refine ⟨key, ?_⟩
  intro V st d1 d2 w1 w2 v1 v2 buf1 buf2 h1 h2
  rw [readData_of_read_ok st d1 w1 v1 buf1 h1, readData_of_read_ok st d2 w2 v2 buf2 h2]
  have r0 : -32768 ≤ int16At buf1 0 ∧ int16At buf1 0 ≤ 32767 := toInt16_range _
  have r1 : -32768 ≤ int16At buf1 1 ∧ int16At buf1 1 ≤ 32767 := toInt16_range _
  have s0 : -32768 ≤ int16At buf2 0 ∧ int16At buf2 0 ≤ 32767 := toInt16_range _
  have s1 : -32768 ≤ int16At buf2 1 ∧ int16At buf2 1 ≤ 32767 := toInt16_range _
  exact ⟨fun h => (key _ _ r0.1 h s0.2).1, fun h => (key _ _ r1.1 h s1.2).2⟩

/-- Monotonicity across the sign change: the raw words -1 and 40 give the
temperatures -400 and -399, the raw words -700 and 700 the humidities -1 and
1. -/
theorem conversion_monotone_witness :
    ((-32768 : Int) ≤ -1 ∧ (-1 : Int) ≤ 40 ∧ (40 : Int) ≤ 32767) ∧
    convTemperature (-1) = -400 ∧ convTemperature 40 = -399 ∧
    convTemperature (-1) ≤ convTemperature 40 ∧
    convHumidity (-700) = -1 ∧ convHumidity 700 = 1 ∧
    convHumidity (-700) ≤ convHumidity 700 :=
  ⟨by decide, by decide, by decide,
   (conversion_monotone.1 (-1) 40 (by decide) (by decide) (by decide)).1,
   by decide, by decide,
   (conversion_monotone.1 (-700) 700 (by decide) (by decide) (by decide)).2⟩

/-! ## Shadow invariant (C19) -/

/-- The shadow left by `hdc2021_init` satisfies the invariant. -/
theorem shadowInv_initState (address : Nat) (write : hdc2021write W) (read : hdc2021read W)
    (wait : hdc2021waitmsec W) : shadowInv (initState address write read wait)._reg :=
  ⟨rfl, rfl, rfl, rfl, rfl, rfl, rfl, rfl, rfl, rfl, rfl, rfl, rfl, rfl, rfl⟩

/-- One host call keeps the invariant. -/
theorem Op.run_shadowInv (op : Op) (st : Driver W) (w : W) (h : shadowInv st._reg) :
    shadowInv (op.run st w).1._reg := by
  cases op with
  | start mode =>
    show shadowInv (hdc2021_start mode st w).2.1._reg
    rw [start_state]
    exact h
  | stop =>
    show shadowInv (hdc2021_stop st w).2.1._reg
    rw [stop_state]
    exact h
  | setInterrupt int_en pol =>
    show shadowInv (hdc2021_setInterrupt int_en pol st)._reg
    rw [setInterrupt_state]
    exact h
  | readData data =>
    show shadowInv (hdc2021_readData st data w).2.2.1._reg
    rw [(readData_unfold st data w).2.1]
    exact h
  | readStatus status =>
    show shadowInv (hdc2021_readStatus st status w).2.2.1._reg
    rw [readStatus_unfold]
    exact h

/-- A sequence of host calls keeps the invariant. -/
theorem runOps_shadowInv (ops : List Op) (st : Driver W) (w : W) (h : shadowInv st._reg) :
    shadowInv (runOps ops st w).1._reg := by
  induction ops generalizing st w with
  | nil => exact h
  | cons op ops ih => exact ih (op.run st w).1 (op.run st w).2 (Op.run_shadowInv op st w h)

/-- The block write of a shadow that satisfies the invariant carries no soft
reset. -/
theorem blockWrite_noReset (reg : HDC2021Regster) (h : shadowInv reg) (a : Nat) :
    (Call.write a 0x05 reg.bytes).noResetWrite := by
  refine ⟨rfl, rfl, ?_⟩
  have hr : reg.device_conf.reset = 0 := h.2.2.2.2.2.2.2.2.1
  have e : reg.bytes.getD 9 0 = reg.device_conf.data := rfl
  rw [e]
  apply Nat.testBit_lt_two_pow
  show reg.device_conf.data < 128
  unfold HDC2021RegDeviceConfig.data
  rw [hr]
  have h1 := reg.device_conf.int_mode.isLt
  have h2 := reg.device_conf.int_pol.isLt
  have h3 := reg.device_conf.drdy.isLt
  have h4 := reg.device_conf.heat.isLt
  have h5 := reg.device_conf.cc.isLt
  simp only [Fin.val_zero]
  omega

/-- One host call on logging callbacks appends only calls without a soft reset. -/
theorem Op.run_log (V : Type) (op : Op) (st : Driver (V × List Call)) (wr : hdc2021write V)
    (rd : hdc2021read V) (hw : st._write = tracedWrite wr) (hr : st._read = tracedRead rd)
    (h : shadowInv st._reg) (w : V) (log : List Call) :
    ∃ extra : List Call, (op.run st (w, log)).2.2 = log ++ extra ∧
      ∀ c ∈ extra, c.noResetWrite := by
  cases op with
  | start mode =>
    refine ⟨[Call.write st._address.val 0x05 (hdc2021_start mode st (w, log)).2.1._reg.bytes],
      ?_, ?_⟩
    · show (hdc2021_start mode st (w, log)).2.2.2 = _
      rw [start_world, hw]
      rfl
    · intro c hc
      rw [List.mem_singleton] at hc
      rw [hc]
      exact blockWrite_noReset _ (Op.run_shadowInv (Op.start mode) st (w, log) h) _
  | stop =>
    refine ⟨[Call.write st._address.val 0x05 (hdc2021_stop st (w, log)).2.1._reg.bytes],
      ?_, ?_⟩
    · show (hdc2021_stop st (w, log)).2.2.2 = _
      rw [stop_world, hw]
      rfl
    · intro c hc
      rw [List.mem_singleton] at hc
      rw [hc]
      exact blockWrite_noReset _ (Op.run_shadowInv Op.stop st (w, log) h) _
  | setInterrupt int_en pol =>
    exact ⟨[], (List.append_nil log).symm, fun c hc => absurd hc (List.not_mem_nil c)⟩
  | readData data =>
    refine ⟨[Call.read st._address.val 0x00 4], ?_, ?_⟩
    · show (hdc2021_readData st data (w, log)).2.2.2.2 = _
      rw [(readData_unfold st data (w, log)).2.2, hr]
      rfl
    · intro c hc
      rw [List.mem_singleton] at hc
      rw [hc]
      exact True.intro
  | readStatus status =>
    refine ⟨[Call.read st._address.val 0x04 1], ?_, ?_⟩
    · show (hdc2021_readStatus st status (w, log)).2.2.2.2 = _
      rw [readStatus_unfold, hr]
      rfl
    · intro c hc
      rw [List.mem_singleton] at hc
      rw [hc]
      exact True.intro

/-- A sequence of host calls on logging callbacks appends only calls without a
soft reset. -/
theorem runOps_log (V : Type) (ops : List Op) (st : Driver (V × List Call))
    (wr : hdc2021write V) (rd : hdc2021read V) (hw : st._write = tracedWrite wr)
    (hr : st._read = tracedRead rd) (h : shadowInv st._reg) (s : V × List Call) :
    ∃ rest : List Call, (runOps ops st s).2.2 = s.2 ++ rest ∧ ∀ c ∈ rest, c.noResetWrite := by
  induction ops generalizing st s with
  | nil => exact ⟨[], (List.append_nil s.2).symm, fun c hc => absurd hc (List.not_mem_nil c)⟩
  | cons op ops ih =>
    obtain ⟨extra, e1, p1⟩ := Op.run_log V op st wr rd hw hr h s.1 s.2
    obtain ⟨k1, k2, _, _⟩ := Op.run_keeps op st s
    obtain ⟨rest, e2, p2⟩ := ih (op.run st s).1 (k1.trans hw) (k2.trans hr)
      (Op.run_shadowInv op st s h) (op.run st s).2
    refine ⟨extra ++ rest, ?_, ?_⟩
    · show (runOps ops (op.run st s).1 (op.run st s).2).2.2 = _
      rw [e2]
      have e3 : (op.run st s).2.2 = s.2 ++ extra := e1
      rw [e3, List.append_assoc]
    · intro c hc
      rcases List.mem_append.1 hc with hc | hc
      · exact p1 c hc
      · exact p2 c hc

/-- C19: in every driver state reached from a call of `hdc2021_init` by any
sequence of `hdc2021_start` (any cadence value), `hdc2021_stop`,
`hdc2021_setInterrupt`, `hdc2021_readData` and `hdc2021_readStatus`, with any
transport behaviour, the shadow keeps `temp_max = hum_max = temp_offset =
hum_offset = 0`, the thresholds `01 FF 00 FF`, `reset = heat = int_mode = 0` and
`meas_conf = res = hacc = tacc = 0`.  On logging callbacks the call log is the
log of init (reset write of `0x80`, wait, identity read after a successful
write) followed by calls of which every write is an 11-byte block at `0x05`
with bit 7 of the byte for register `0x0E` clear; the reset write of init,
whose byte `0x80` has bit 7 set, is the only write with `reset = 1`. -/
theorem shadow_invariant :
    (∀ (V : Type) (address : Nat) (wr : hdc2021write V) (rd : hdc2021read V)
        (wt : hdc2021waitmsec V) (st : Driver V) (w : V) (ops : List Op),
      shadowInv (runOps ops (hdc2021_init address wr rd wt st w).2.1
        (hdc2021_init address wr rd wt st w).2.2).1._reg) ∧
    (∀ (V : Type) (address : Nat) (wr : hdc2021write V) (rd : hdc2021read V)
        (wt : hdc2021waitmsec V) (st : Driver (V × List Call)) (w : V) (log : List Call)
        (ops : List Op),
      ∃ rest : List Call,
        (runOps ops
          (hdc2021_init address (tracedWrite wr) (tracedRead rd) (tracedWait wt) st
            (w, log)).2.1
          (hdc2021_init address (tracedWrite wr) (tracedRead rd) (tracedWait wt) st
            (w, log)).2.2).2.2 =
          log ++ [Call.write (address % 256) 0x0E [0x80], Call.wait 10] ++
            (if (wr (address % 256) 0x0E [0x80] w).1 = true
              then [Call.read (address % 256) 0xFE 2] else []) ++ rest ∧
        ∀ c ∈ rest, c.noResetWrite) ∧
    (0x80 : Nat).testBit 7 = true := by
  refine ⟨?_, ?_, by decide⟩
  · intro V address wr rd wt st w ops
    apply runOps_shadowInv
    rw [init_state]
    exact shadowInv_initState address wr rd wt
  · intro V address wr rd wt st w log ops
    obtain ⟨rest, e, p⟩ := runOps_log V ops
      (hdc2021_init address (tracedWrite wr) (tracedRead rd) (tracedWait wt) st (w, log)).2.1
      wr rd (by rw [init_state]; rfl) (by rw [init_state]; rfl)
      (by rw [init_state]; exact shadowInv_initState _ _ _ _)
      (hdc2021_init address (tracedWrite wr) (tracedRead rd) (tracedWait wt) st (w, log)).2.2
    refine ⟨rest, ?_, p⟩
    rw [e, init_log]

end HDC2021
